import Mathlib

/-!
Verification of the attribute-resolution and record-reconciliation engine of
the `atlassian_asset_assigner` repository (files `src/asset_manager.py`,
`src/jira_assets_client.py`, `src/jira_user_client.py`), as a shallow
embedding.  Collaborator calls (HTTP transport, disk cache) are modelled as
explicit environment records whose fields return `Except`-style results;
Python dictionaries coming from the API are modelled as structures whose
optional keys are `Option` fields; Python exceptions are an explicit error
type threaded through the control flow exactly as the `try/except` blocks
dictate.
-/

/-- A Python value as produced by the attribute extraction helpers:
`None`, a string, or a list of such values (`str`/`list` are the only shapes
the extraction code produces). -/
inductive PyVal where
  | none : PyVal
  | str : String → PyVal
  | list : List PyVal → PyVal

/-- Python truthiness for the values produced by extraction:
`None` and empty strings/lists are falsy. -/
def PyVal.isTruthy : PyVal → Bool
  | PyVal.none => false
  | PyVal.str s => !(s == "")
  | PyVal.list xs => !xs.isEmpty

mutual

/-- Python `repr` of an extracted value, used inside `str()` of a list. -/
def PyVal.pyRepr : PyVal → String
  | PyVal.none => "None"
  | PyVal.str s => "\x27" ++ s ++ "\x27"
  | PyVal.list xs => "[" ++ String.intercalate ", " (pyReprList xs) ++ "]"

/-- `repr` of each element of a list of Python values. -/
def pyReprList : List PyVal → List String
  | [] => []
  | v :: vs => v.pyRepr :: pyReprList vs

end

/-- Python `str()` of an extracted value (`str` of a string is itself;
`str(None) = "None"`; a list renders with `repr`ed elements). -/
def PyVal.pyStr : PyVal → String
  | PyVal.none => "None"
  | PyVal.str s => s
  | PyVal.list xs => "[" ++ String.intercalate ", " (pyReprList xs) ++ "]"

/-- Python `==` between an extracted value and a string literal (only a
string value can compare equal to a string). -/
def PyVal.eqStr : PyVal → String → Bool
  | PyVal.str s, t => s == t
  | _, _ => false

/-- `displayValue`-or-`None` as a Python value. -/
def optStrToPyVal : Option String → PyVal
  | Option.none => PyVal.none
  | some s => PyVal.str s

/-- One entry of an attribute's `objectAttributeValues` list.  All keys are
optional in the raw API dictionaries (`val.get(...)` everywhere in the
source), hence `Option` fields.  `referencedObjectKey` models
`val.get('referencedObject', \x7b\x7d).get('objectKey')`. -/
structure AttrValue where
  value : Option String
  displayValue : Option String
  searchValue : Option String
  referencedObjectKey : Option String
deriving Repr, BEq, DecidableEq

/-- One attribute instance on a record.  The complete-object shape carries
`objectTypeAttribute` metadata (`name`/`type`) plus `objectTypeAttributeId`
and `objectAttributeValues`; AQL responses may instead carry the plain
`name`/`values` keys, which the source reads as a fallback shape. -/
structure ObjectAttribute where
  objectTypeAttributeName : Option String
  objectTypeAttributeType : Option Nat
  objectTypeAttributeId : Option Nat
  objectAttributeValues : List AttrValue
  name : Option String
  values : List AttrValue
deriving Repr, BEq, DecidableEq

/-- A record (asset object) as returned by `get_object_by_key` or an AQL
query.  `name` and `label` model the top-level `name`/`label` keys read by
`list_suppliers` and `create_asset` (absent on most responses). -/
structure AssetObject where
  id : Nat
  objectKey : String
  objectTypeId : Nat
  attributes : List ObjectAttribute
  name : Option String := Option.none
  label : Option String := Option.none
deriving Repr, BEq, DecidableEq

/-- `JiraAssetsClient.extract_attribute_value`: scan of the attribute list,
first entry whose `objectTypeAttribute.name` equals the wanted name wins. -/
def extract_attribute_value_go (attribute_name : String) : List ObjectAttribute → PyVal
  | [] => PyVal.none
  | a :: rest =>
    if a.objectTypeAttributeName == some attribute_name then
      match a.objectAttributeValues with
      | [] => PyVal.none
      | [v] => optStrToPyVal v.displayValue
      | vs => PyVal.list (vs.map fun v => optStrToPyVal v.displayValue)
    else extract_attribute_value_go attribute_name rest

/-- `JiraAssetsClient.extract_attribute_value(object_data, attribute_name)`:
returns `None` when no attribute entry matches or the match has no values,
the single display value for a one-value entry, and the list of display
values for a multi-value entry.  Total: never raises. -/
def extract_attribute_value (object_data : AssetObject) (attribute_name : String) : PyVal :=
  extract_attribute_value_go attribute_name object_data.attributes

/-- `JiraAssetsClient.extract_attribute_value_by_id`: same contract keyed on
`objectTypeAttributeId` (`str(id) == str(id)` comparison collapses to `Nat`
equality). -/
def extract_attribute_value_by_id_go (attribute_id : Nat) : List ObjectAttribute → PyVal
  | [] => PyVal.none
  | a :: rest =>
    if a.objectTypeAttributeId == some attribute_id then
      match a.objectAttributeValues with
      | [] => PyVal.none
      | [v] => optStrToPyVal v.displayValue
      | vs => PyVal.list (vs.map fun v => optStrToPyVal v.displayValue)
    else extract_attribute_value_by_id_go attribute_id rest

/-- `extract_attribute_value_by_id(object_data, attribute_id)`. -/
def extract_attribute_value_by_id (object_data : AssetObject) (attribute_id : Nat) : PyVal :=
  extract_attribute_value_by_id_go attribute_id object_data.attributes

theorem extract_go_eq_none_of_not_mem (n : String) (attrs : List ObjectAttribute)
    (h : ∀ a ∈ attrs, ¬ a.objectTypeAttributeName = some n) :
    extract_attribute_value_go n attrs = PyVal.none := by
  induction attrs with
  | nil => rfl
  | cons a rest ih =>
    have ha : ¬ a.objectTypeAttributeName = some n := h a (List.mem_cons_self a rest)
    simp only [extract_attribute_value_go]
    rw [if_neg (by simpa using ha)]
    exact ih fun b hb => h b (List.mem_cons_of_mem a hb)

theorem extract_go_eq_of_find?_eq_some (n : String) (attrs : List ObjectAttribute)
    (a : ObjectAttribute)
    (h : attrs.find? (fun a0 => a0.objectTypeAttributeName == some n) = some a) :
    extract_attribute_value_go n attrs =
      (match a.objectAttributeValues with
       | [] => PyVal.none
       | [v] => optStrToPyVal v.displayValue
       | vs => PyVal.list (vs.map fun v => optStrToPyVal v.displayValue)) := by
  induction attrs with
  | nil => simp [List.find?] at h
  | cons b rest ih =>
    by_cases hm : (b.objectTypeAttributeName == some n) = true
    · have hb : (b :: rest).find? (fun a0 => a0.objectTypeAttributeName == some n) = some b :=
        List.find?_cons_of_pos rest hm
      rw [hb] at h
      injection h with h
      subst h
      simp only [extract_attribute_value_go, if_pos hm]
    · have hb : (b :: rest).find? (fun a0 => a0.objectTypeAttributeName == some n) =
          rest.find? (fun a0 => a0.objectTypeAttributeName == some n) :=
        List.find?_cons_of_neg rest hm
      rw [hb] at h
      simp only [extract_attribute_value_go]
      rw [if_neg hm]
      exact ih h

/-- C2: for every record and attribute name, `extract_attribute_value`
returns null when no attribute entry with that name exists or when the first
matching entry has zero values; with exactly one value it returns that
value's display value; with two or more values it returns the list of
display values in encounter order (length preserved by `map`).  The function
is total, so a missing attribute never raises. -/
theorem extract_attribute_value_spec (r : AssetObject) (n : String) :
    ((∀ a ∈ r.attributes, ¬ a.objectTypeAttributeName = some n) →
      extract_attribute_value r n = PyVal.none) ∧
    (∀ a, r.attributes.find? (fun a0 => a0.objectTypeAttributeName == some n) = some a →
      (a.objectAttributeValues = [] → extract_attribute_value r n = PyVal.none) ∧
      (∀ v, a.objectAttributeValues = [v] →
        extract_attribute_value r n = optStrToPyVal v.displayValue) ∧
      (2 ≤ a.objectAttributeValues.length →
        extract_attribute_value r n =
          PyVal.list (a.objectAttributeValues.map fun v => optStrToPyVal v.displayValue))) := by
  constructor
  · intro h
    exact extract_go_eq_none_of_not_mem n r.attributes h
  · intro a ha
    have he := extract_go_eq_of_find?_eq_some n r.attributes a ha
    refine ⟨?_, ?_, ?_⟩
    · intro hv
      rw [extract_attribute_value, he, hv]
    · intro v hv
      rw [extract_attribute_value, he, hv]
    · intro hlen
      rw [extract_attribute_value, he]
      match hv : a.objectAttributeValues with
      | [] => rw [hv] at hlen; simp at hlen
      | [v] => rw [hv] at hlen; simp at hlen
      | v :: w :: vs => rfl

/-- A concrete record exercising all four branches of C2. -/
def c2SampleRecord : AssetObject :=
  { id := 1, objectKey := "HW-0003", objectTypeId := 10,
    attributes :=
      [ { objectTypeAttributeName := some "User Email",
          objectTypeAttributeType := some 0, objectTypeAttributeId := some 1,
          objectAttributeValues :=
            [ { value := some "alice@example.com",
                displayValue := some "alice@example.com",
                searchValue := Option.none, referencedObjectKey := Option.none } ],
          name := Option.none, values := [] },
        { objectTypeAttributeName := some "Tags",
          objectTypeAttributeType := some 0, objectTypeAttributeId := some 2,
          objectAttributeValues :=
            [ { value := some "a", displayValue := some "a",
                searchValue := Option.none, referencedObjectKey := Option.none },
              { value := some "b", displayValue := some "b",
                searchValue := Option.none, referencedObjectKey := Option.none } ],
          name := Option.none, values := [] },
        { objectTypeAttributeName := some "Assignee",
          objectTypeAttributeType := some 0, objectTypeAttributeId := some 3,
          objectAttributeValues := [],
          name := Option.none, values := [] } ] }

/-- Witness for C2 at a concrete record: scalar, empty, multi-value and
missing attribute cases, each obtained from `extract_attribute_value_spec`. -/
theorem extract_attribute_value_spec_witness :
    extract_attribute_value c2SampleRecord "Serial Number" = PyVal.none ∧
    extract_attribute_value c2SampleRecord "Assignee" = PyVal.none ∧
    extract_attribute_value c2SampleRecord "User Email" = PyVal.str "alice@example.com" ∧
    extract_attribute_value c2SampleRecord "Tags" = PyVal.list [PyVal.str "a", PyVal.str "b"] := by
  refine ⟨?_, ?_, ?_, ?_⟩
  · exact (extract_attribute_value_spec c2SampleRecord "Serial Number").1
      (by intro a ha; simp only [c2SampleRecord, List.mem_cons, List.not_mem_nil] at ha
          rcases ha with h | h | h | h <;> (try subst h) <;> simp_all)
  · exact (((extract_attribute_value_spec c2SampleRecord "Assignee").2 _ (by rfl)).1 (by rfl))
  · exact (((extract_attribute_value_spec c2SampleRecord "User Email").2 _ (by rfl)).2.1 _ (by rfl))
  · exact (((extract_attribute_value_spec c2SampleRecord "Tags").2 _ (by rfl)).2.2 (by decide))

/-- Python `str.lower()` (ASCII case folding, which is what the compared
strings use). -/
def pyLower (s : String) : String := String.mk (s.data.map Char.toLower)

/-- Python `str.upper()` (ASCII case folding). -/
def pyUpper (s : String) : String := String.mk (s.data.map Char.toUpper)

/-- Python `str.strip()`: leading and trailing whitespace removed. -/
def pyStrip (s : String) : String :=
  String.mk (((s.data.dropWhile Char.isWhitespace).reverse.dropWhile Char.isWhitespace).reverse)

/-- Python `str.replace(' ', '')`: every space character removed. -/
def removeSpaces (s : String) : String :=
  String.mk (s.data.filter (fun c => !(c == ' ')))

/-- Python `needle in haystack` on strings (substring containment). -/
def listIsInfix (needle : List Char) : List Char → Bool
  | [] => needle.isEmpty
  | c :: rest => needle.isPrefixOf (c :: rest) || listIsInfix needle rest

/-- `needle in haystack` for Lean strings. -/
def strContains (haystack needle : String) : Bool :=
  listIsInfix needle.data haystack.data

/-- The Python exception kinds raised across the embedded modules
(`ValueError`, `ValidationError`, `AssetUpdateError`, the
`JiraAssetsAPIError` hierarchy, the `JiraUserAPIError` hierarchy, and a
catch-all for unexpected exceptions).  The payload is `str(e)`. -/
inductive PyExc where
  | valueError : String → PyExc
  | validationError : String → PyExc
  | assetUpdateError : String → PyExc
  | assetsAPIError : String → PyExc
  | assetNotFound : String → PyExc
  | schemaNotFound : String → PyExc
  | objectTypeNotFound : String → PyExc
  | attributeNotFound : String → PyExc
  | userAPIError : String → PyExc
  | userNotFound : String → PyExc
  | multipleUsersFound : String → PyExc
  | otherError : String → PyExc
deriving Repr, BEq, DecidableEq

/-- `str(e)` for an exception: its message. -/
def PyExc.msg : PyExc → String
  | PyExc.valueError m => m
  | PyExc.validationError m => m
  | PyExc.assetUpdateError m => m
  | PyExc.assetsAPIError m => m
  | PyExc.assetNotFound m => m
  | PyExc.schemaNotFound m => m
  | PyExc.objectTypeNotFound m => m
  | PyExc.attributeNotFound m => m
  | PyExc.userAPIError m => m
  | PyExc.userNotFound m => m
  | PyExc.multipleUsersFound m => m
  | PyExc.otherError m => m

/-- `isinstance(e, JiraAssetsAPIError)`: the assets-client exception class and
its four subclasses. -/
def PyExc.isJiraAssetsAPIError : PyExc → Bool
  | PyExc.assetsAPIError _ => true
  | PyExc.assetNotFound _ => true
  | PyExc.schemaNotFound _ => true
  | PyExc.objectTypeNotFound _ => true
  | PyExc.attributeNotFound _ => true
  | _ => false

/-- One `(id, name)` status value from a Status attribute's `typeValue`
metadata; both keys are read with `.get`. -/
structure StatusValue where
  id : Option Nat
  name : Option String
deriving Repr, BEq, DecidableEq

/-- An attribute definition of an object type, as returned by
`get_object_attributes`.  `defaultTypeName` models
`(attr.get('defaultType') or \x7b\x7d).get('name')`; `typ` models
`attr.get('type')`; the two status-value lists model
`typeValue.get('statusTypeValues')` / `typeValue.get('statusValues')`. -/
structure AttributeDef where
  id : Nat
  name : String
  defaultTypeName : Option String
  typ : Option Nat
  statusTypeValues : Option (List StatusValue)
  statusValues : Option (List StatusValue)
deriving Repr, BEq, DecidableEq

/-- An object schema (`id`, `name`). -/
structure Schema where
  id : Nat
  name : String
deriving Repr, BEq, DecidableEq

/-- An object type (`id`, `name`). -/
structure ObjectType where
  id : Nat
  name : String
deriving Repr, BEq, DecidableEq

/-- An attribute update payload as built by `create_attribute_update` and
`map_attributes_between_types`: a definition id paired with the raw string
values (`\x7b'value': str(v)\x7d` entries). -/
structure AttributeUpdate where
  objectTypeAttributeId : Nat
  objectAttributeValues : List String
deriving Repr, BEq, DecidableEq

/-- The configuration attribute names (`config.py` defaults plus the
additional names the asset manager reads from injected test configs). -/
structure Config where
  hardwareSchemaName : String
  laptopsObjectSchemaName : String
  userEmailAttribute : String
  assigneeAttribute : String
  retirementDateAttribute : String
  assetStatusAttribute : String
  serialNumberAttribute : String
  modelNameAttribute : String
  invoiceNumberAttribute : String
  purchaseDateAttribute : String
  costAttribute : String
  colourAttribute : String
  supplierAttribute : String
deriving Repr, BEq, DecidableEq

/-- The default configuration values from `config.py` and the attribute
names used by the test configurations. -/
def defaultConfig : Config :=
  { hardwareSchemaName := "Hardware"
    laptopsObjectSchemaName := "Laptops"
    userEmailAttribute := "User Email"
    assigneeAttribute := "Assignee"
    retirementDateAttribute := "Retirement Date"
    assetStatusAttribute := "Asset Status"
    serialNumberAttribute := "Serial Number"
    modelNameAttribute := "Model Name"
    invoiceNumberAttribute := "Invoice Number"
    purchaseDateAttribute := "Purchase Date"
    costAttribute := "Cost"
    colourAttribute := "Colour"
    supplierAttribute := "Supplier" }

/-- A `(name, key)` supplier entry as produced by `list_suppliers`. -/
structure SupplierRec where
  name : String
  key : String
deriving Repr, BEq, DecidableEq

/-- The stateless collaborator interface of `JiraAssetsClient`: each HTTP
endpoint is a field returning `Except` (a raised exception or the parsed
response).  `findObjectsByAql` takes `(query, start, limit)` and returns the
`values` list of the response.  The two cache fields model the 24-hour disk
cache consulted by `list_models` / `list_suppliers` (explicitly
out-of-scope transport glue). -/
structure ClientEnv where
  objectSchemas : Except PyExc (List Schema)
  objectTypes : Nat → Except PyExc (List ObjectType)
  getObjectAttributes : Nat → Except PyExc (List AttributeDef)
  getObjectByKey : String → Except PyExc AssetObject
  findObjectsByAql : String → Nat → Nat → Except PyExc (List AssetObject)
  createObject : Nat → List AttributeUpdate → Except PyExc AssetObject
  deleteObject : Nat → Except PyExc Bool
  modelsCache : Option (List String)
  suppliersCache : Option (List SupplierRec)

/-- `JiraAssetsClient.get_schema_by_name`: linear scan of
`get_object_schemas`, raising `SchemaNotFoundError` with the schema name
when absent. -/
def get_schema_by_name (env : ClientEnv) (schema_name : String) : Except PyExc Schema :=
  match env.objectSchemas with
  | Except.error e => Except.error e
  | Except.ok schemas =>
    match schemas.find? (fun s => s.name == schema_name) with
    | some s => Except.ok s
    | Option.none =>
      Except.error (PyExc.schemaNotFound ("Schema \x27" ++ schema_name ++ "\x27 not found"))

/-- `JiraAssetsClient.get_object_type_by_name`. -/
def get_object_type_by_name (env : ClientEnv) (schema_id : Nat) (object_type_name : String) :
    Except PyExc ObjectType :=
  match env.objectTypes schema_id with
  | Except.error e => Except.error e
  | Except.ok object_types =>
    match object_types.find? (fun t => t.name == object_type_name) with
    | some t => Except.ok t
    | Option.none =>
      Except.error (PyExc.objectTypeNotFound
        ("Object type \x27" ++ object_type_name ++ "\x27 not found in schema " ++ toString schema_id))

/-- `AssetManager.get_laptops_object_type`: Hardware schema, then the
Laptops object type within it. -/
def get_laptops_object_type (env : ClientEnv) (cfg : Config) : Except PyExc ObjectType :=
  match get_schema_by_name env cfg.hardwareSchemaName with
  | Except.error e => Except.error e
  | Except.ok hardware_schema =>
    get_object_type_by_name env hardware_schema.id cfg.laptopsObjectSchemaName

/-- Python rendering of an optional integer (`str(None) = "None"`). -/
def pyStrOptNat : Option Nat → String
  | Option.none => "None"
  | some n => toString n

/-- Python `repr` of a list of strings, as interpolated by f-strings. -/
def pyReprStrList (xs : List String) : String :=
  "[" ++ String.intercalate ", " (xs.map fun s => "\x27" ++ s ++ "\x27") ++ "]"

/-- `type_value.get('statusTypeValues') or type_value.get('statusValues') or []`:
first truthy (non-`None`, non-empty) list wins. -/
def statusValuesOfAttr (a : AttributeDef) : List StatusValue :=
  match a.statusTypeValues with
  | some (v :: vs) => v :: vs
  | _ =>
    match a.statusValues with
    | some (v :: vs) => v :: vs
    | _ => []

/-- Python truthiness of the `default_type_name` binding in
`resolve_status_name_to_id`. -/
def defaultTypeNameTruthy : Option String → Bool
  | some s => !(s == "")
  | Option.none => false

/-- `AssetManager.resolve_status_name_to_id(status_name)`: fetch the Laptops
type and its attributes, locate the configured status attribute, pass the
name through unchanged for non-Status attributes, otherwise resolve it
against the attribute's status values (exact name match, stringified id),
raising `ValueError` with the truthy status names when absent. -/
def resolve_status_name_to_id (env : ClientEnv) (cfg : Config) (status_name : String) :
    Except PyExc String :=
  match get_laptops_object_type env cfg with
  | Except.error e => Except.error e
  | Except.ok laptops_object_type =>
  match env.getObjectAttributes laptops_object_type.id with
  | Except.error e => Except.error e
  | Except.ok attributes =>
  match attributes.find? (fun a => a.name == cfg.assetStatusAttribute) with
  | Option.none =>
    Except.error (PyExc.valueError
      ("Status attribute \x27" ++ cfg.assetStatusAttribute ++ "\x27 not found"))
  | some status_attribute =>
    let default_type_name := status_attribute.defaultTypeName
    if defaultTypeNameTruthy default_type_name &&
        !(pyLower (default_type_name.getD "") == "status") then
      Except.ok status_name
    else
      let status_type_values := statusValuesOfAttr status_attribute
      match status_type_values.find? (fun sv => sv.name == some status_name) with
      | some status_value => Except.ok (pyStrOptNat status_value.id)
      | Option.none =>
        let available_statuses := status_type_values.filterMap fun sv =>
          match sv.name with
          | some s => if s == "" then Option.none else some s
          | Option.none => Option.none
        Except.error (PyExc.valueError
          ("Status \x27" ++ status_name ++ "\x27 not found. Available statuses: " ++
            pyReprStrList available_statuses))

/-- The name-indexed map of target attribute definitions
(`\x7battr['name']: attr for attr in target_attributes\x7d`): a Python dict
comprehension keeps the last definition for a duplicated name. -/
def targetAttrLookup (target_attributes : List AttributeDef) (attr_name : String) :
    Option AttributeDef :=
  target_attributes.reverse.find? (fun d => d.name == attr_name)

/-- Python truthiness of `attr_name` in the mapping loop (a missing
`objectTypeAttribute.name` and an empty name are both falsy). -/
def attrNameTruthy : Option String → Bool
  | some s => !(s == "")
  | Option.none => false

/-- The warning text for a source/target declared-type mismatch. -/
def typeMismatchWarning (attr_name : String) (source_type target_type : Option Nat) : String :=
  "Attribute \x27" ++ attr_name ++ "\x27 type mismatch: " ++
    pyStrOptNat source_type ++ " → " ++ pyStrOptNat target_type

/-- The type-mismatch warning contribution for a matched name (emitted
before the value copy, so present even when no value objects carry a
`value` key). -/
def mapWarnings (source_attr : ObjectAttribute) (target_attr_def : AttributeDef) : List String :=
  if source_attr.objectTypeAttributeType ≠ target_attr_def.typ then
    [typeMismatchWarning (source_attr.objectTypeAttributeName.getD "")
      source_attr.objectTypeAttributeType target_attr_def.typ]
  else []

/-- One iteration of the `map_attributes_between_types` loop: the
`(mapped, warnings, unmapped)` contribution of a single source attribute
instance.  An attribute with a falsy name or no values contributes nothing;
a name present on the target contributes the mapped entry (only when at
least one value object carries a `value` key) plus a possible type-mismatch
warning; a name absent from the target contributes to `unmapped`. -/
def mapOneAttr (target_attributes : List AttributeDef) (source_attr : ObjectAttribute) :
    List AttributeUpdate × List String × List String :=
  if !(attrNameTruthy source_attr.objectTypeAttributeName) ||
      source_attr.objectAttributeValues.isEmpty then
    ([], [], [])
  else
    match targetAttrLookup target_attributes (source_attr.objectTypeAttributeName.getD "") with
    | some target_attr_def =>
      if (source_attr.objectAttributeValues.filterMap (fun v => v.value)).isEmpty then
        ([], mapWarnings source_attr target_attr_def, [])
      else
        ([{ objectTypeAttributeId := target_attr_def.id,
            objectAttributeValues :=
              source_attr.objectAttributeValues.filterMap (fun v => v.value) }],
          mapWarnings source_attr target_attr_def, [])
    | Option.none => ([], [], [source_attr.objectTypeAttributeName.getD ""])

/-- The mapping loop over the source record's attribute instances, appending
each contribution in encounter order. -/
def mapAttrsGo (target_attributes : List AttributeDef) :
    List ObjectAttribute → List AttributeUpdate × List String × List String
  | [] => ([], [], [])
  | a :: rest =>
    let c := mapOneAttr target_attributes a
    let r := mapAttrsGo target_attributes rest
    (c.1 ++ r.1, c.2.1 ++ r.2.1, c.2.2 ++ r.2.2)

/-- `JiraAssetsClient.map_attributes_between_types(source_attributes,
source_object_data, target_object_type_id)` with the target type's
attribute definitions already fetched (the only collaborator call in the
body).  The `source_attributes` parameter is kept although the source never
reads it, mirroring the Python signature. -/
def map_attributes_between_types (target_attributes : List AttributeDef)
    (source_attributes : List AttributeDef) (source_object_data : AssetObject) :
    List AttributeUpdate × List String × List String :=
  mapAttrsGo target_attributes source_object_data.attributes

theorem mapOneAttr_unmapped_not_in_target (t : List AttributeDef) (a : ObjectAttribute)
    (name : String) (hmem : name ∈ (mapOneAttr t a).2.2) :
    ∀ d ∈ t, ¬ d.name = name := by
  intro d hd hdn
  unfold mapOneAttr at hmem
  by_cases h1 : (!(attrNameTruthy a.objectTypeAttributeName) ||
      a.objectAttributeValues.isEmpty) = true
  · rw [if_pos h1] at hmem
    simp at hmem
  · rw [if_neg h1] at hmem
    cases hl : targetAttrLookup t (a.objectTypeAttributeName.getD "") with
    | some td =>
      simp only [hl] at hmem
      by_cases h2 : ((a.objectAttributeValues.filterMap (fun v => v.value)).isEmpty) = true
      · rw [if_pos h2] at hmem
        simp at hmem
      · rw [if_neg h2] at hmem
        simp at hmem
    | none =>
      simp only [hl] at hmem
      simp only [List.mem_singleton] at hmem
      subst hmem
      unfold targetAttrLookup at hl
      rw [List.find?_eq_none] at hl
      exact absurd (by simp [hdn]) (hl d (List.mem_reverse.mpr hd))

theorem mapOneAttr_length_le (t : List AttributeDef) (a : ObjectAttribute) :
    (mapOneAttr t a).1.length + (mapOneAttr t a).2.2.length ≤
      (if a.objectAttributeValues.isEmpty then 0 else 1) := by
  unfold mapOneAttr
  by_cases h1 : (!(attrNameTruthy a.objectTypeAttributeName) ||
      a.objectAttributeValues.isEmpty) = true
  · rw [if_pos h1]
    simp
  · have h1f : (!(attrNameTruthy a.objectTypeAttributeName) ||
        a.objectAttributeValues.isEmpty) = false := by simpa using h1
    rcases Bool.or_eq_false_iff.mp h1f with ⟨-, hvals⟩
    rw [if_neg h1, hvals]
    cases hl : targetAttrLookup t (a.objectTypeAttributeName.getD "") with
    | some td =>
      simp only [hl]
      by_cases h2 : ((a.objectAttributeValues.filterMap (fun v => v.value)).isEmpty) = true
      · rw [if_pos h2]
        simp
      · rw [if_neg h2]
        simp
    | none =>
      simp only [hl]
      simp

theorem mapOneAttr_empty_values (t : List AttributeDef) (a : ObjectAttribute)
    (h : a.objectAttributeValues.isEmpty = true) : mapOneAttr t a = ([], [], []) := by
  unfold mapOneAttr
  rw [if_pos (by rw [h]; simp)]

theorem mapAttrsGo_unmapped_not_in_target (t : List AttributeDef)
    (attrs : List ObjectAttribute) :
    ∀ name ∈ (mapAttrsGo t attrs).2.2, ∀ d ∈ t, ¬ d.name = name := by
  induction attrs with
  | nil => intro name hname; simp [mapAttrsGo] at hname
  | cons a rest ih =>
    intro name hname
    simp only [mapAttrsGo, List.mem_append] at hname
    rcases hname with h | h
    · exact mapOneAttr_unmapped_not_in_target t a name h
    · exact ih name h

theorem mapAttrsGo_length_le (t : List AttributeDef) (attrs : List ObjectAttribute) :
    (mapAttrsGo t attrs).1.length + (mapAttrsGo t attrs).2.2.length ≤
      (attrs.filter (fun a => !a.objectAttributeValues.isEmpty)).length := by
  induction attrs with
  | nil => simp [mapAttrsGo]
  | cons a rest ih =>
    simp only [mapAttrsGo, List.length_append, List.filter_cons]
    by_cases hv : a.objectAttributeValues.isEmpty = true
    · have hc := mapOneAttr_empty_values t a hv
      rw [hc]
      simpa [hv] using ih
    · have hvf : a.objectAttributeValues.isEmpty = false := by simpa using hv
      have h1 := mapOneAttr_length_le t a
      rw [hvf] at h1
      simp only [hvf, Bool.not_false, if_true, List.length_cons]
      rw [if_neg (by simp)] at h1
      omega

theorem mapAttrsGo_filter_invariant (t : List AttributeDef) (attrs : List ObjectAttribute) :
    mapAttrsGo t (attrs.filter (fun a => !a.objectAttributeValues.isEmpty)) =
      mapAttrsGo t attrs := by
  induction attrs with
  | nil => simp [mapAttrsGo]
  | cons a rest ih =>
    simp only [List.filter_cons]
    by_cases hv : a.objectAttributeValues.isEmpty = true
    · have hc := mapOneAttr_empty_values t a hv
      simp only [hv, Bool.not_true, Bool.false_eq_true, if_false]
      rw [ih]
      simp only [mapAttrsGo, hc]
      simp
    · have hvf : a.objectAttributeValues.isEmpty = false := by simpa using hv
      simp only [hvf, Bool.not_false, if_true]
      simp only [mapAttrsGo, ih]

/-- C6: for every source record and target attribute set,
(1) every name reported unmapped has no same-named attribute definition on
the target type; (2) `len(mapped) + len(unmapped)` is at most the number of
source attribute instances with at least one value; and (3) source
attributes with zero values are silently skipped: dropping them from the
record does not change the mapping result at all, so they appear in neither
list. -/
theorem map_attributes_between_types_spec (t s : List AttributeDef) (obj : AssetObject) :
    (∀ name ∈ (map_attributes_between_types t s obj).2.2,
      ∀ d ∈ t, ¬ d.name = name) ∧
    ((map_attributes_between_types t s obj).1.length +
        (map_attributes_between_types t s obj).2.2.length ≤
      (obj.attributes.filter (fun a => !a.objectAttributeValues.isEmpty)).length) ∧
    (map_attributes_between_types t s
        { obj with attributes := obj.attributes.filter (fun a => !a.objectAttributeValues.isEmpty) } =
      map_attributes_between_types t s obj) := by
  refine ⟨?_, ?_, ?_⟩
  · exact fun name hname => mapAttrsGo_unmapped_not_in_target t obj.attributes name hname
  · exact mapAttrsGo_length_le t obj.attributes
  · exact mapAttrsGo_filter_invariant t obj.attributes

/-- C8: fixing any environment whose Laptops attribute fetch succeeds and
contains the configured status attribute: when that attribute's declared
default type name is anything other than "Status" (case-insensitively,
nonempty), resolution returns the input unchanged for every input string;
when the default type is Status, resolution returns the stringified id of
the status value whose name exactly equals the input, and raises a
`ValueError` listing the truthy status-value names when no value matches. -/
theorem resolve_status_name_to_id_spec (env : ClientEnv) (cfg : Config)
    (ot : ObjectType) (attrs : List AttributeDef) (sattr : AttributeDef)
    (hot : get_laptops_object_type env cfg = Except.ok ot)
    (hattrs : env.getObjectAttributes ot.id = Except.ok attrs)
    (hfind : attrs.find? (fun a => a.name == cfg.assetStatusAttribute) = some sattr) :
    (∀ input dt, sattr.defaultTypeName = some dt → ¬ dt = "" → ¬ pyLower dt = "status" →
      resolve_status_name_to_id env cfg input = Except.ok input) ∧
    (∀ input dt, sattr.defaultTypeName = some dt → pyLower dt = "status" →
      (∀ sv, (statusValuesOfAttr sattr).find? (fun x => x.name == some input) = some sv →
        resolve_status_name_to_id env cfg input = Except.ok (pyStrOptNat sv.id)) ∧
      ((statusValuesOfAttr sattr).find? (fun x => x.name == some input) = Option.none →
        resolve_status_name_to_id env cfg input = Except.error (PyExc.valueError
          ("Status \x27" ++ input ++ "\x27 not found. Available statuses: " ++
            pyReprStrList ((statusValuesOfAttr sattr).filterMap fun sv =>
              match sv.name with
              | some s => if s == "" then Option.none else some s
              | Option.none => Option.none))))) := by
  constructor
  · intro input dt hdt hne hnl
    unfold resolve_status_name_to_id
    simp only [hot, hattrs, hfind]
    rw [if_pos]
    rw [hdt]
    simp [defaultTypeNameTruthy, hne, hnl]
  · intro input dt hdt hlow
    have hcond : (defaultTypeNameTruthy sattr.defaultTypeName &&
        !(pyLower (sattr.defaultTypeName.getD "") == "status")) = false := by
      rw [hdt]
      simp [hlow]
    constructor
    · intro sv hsv
      unfold resolve_status_name_to_id
      simp only [hot, hattrs, hfind]
      rw [if_neg (by rw [hcond]; simp), hsv]
    · intro hnone
      unfold resolve_status_name_to_id
      simp only [hot, hattrs, hfind]
      rw [if_neg (by rw [hcond]; simp), hnone]

/-- The Laptops attribute definitions for the status-resolution witness:
the status attribute is Status-typed with two status values, the colour
attribute is Text-typed. -/
def c8StatusEnv : ClientEnv :=
  { objectSchemas := Except.ok [{ id := 1, name := "Hardware" }]
    objectTypes := fun sid =>
      if sid == 1 then Except.ok [{ id := 23, name := "Laptops" }]
      else Except.error (PyExc.assetsAPIError "no such schema")
    getObjectAttributes := fun tid =>
      if tid == 23 then
        Except.ok
          [ { id := 40, name := "Asset Status", defaultTypeName := some "Status",
              typ := some 7,
              statusTypeValues := some
                [ { id := some 1, name := some "In Use" },
                  { id := some 2, name := some "Retired" } ],
              statusValues := Option.none } ]
      else Except.error (PyExc.assetsAPIError "no such object type")
    getObjectByKey := fun k =>
      Except.error (PyExc.assetNotFound ("Asset not found [get object " ++ k ++ "]"))
    findObjectsByAql := fun _ _ _ => Except.ok []
    createObject := fun _ _ => Except.error (PyExc.assetsAPIError "create not stubbed")
    deleteObject := fun _ => Except.error (PyExc.assetsAPIError "delete not stubbed")
    modelsCache := Option.none
    suppliersCache := Option.none }

/-- A second environment whose status attribute is Text-typed, exercising
the pass-through branch. -/
def c8TextEnv : ClientEnv :=
  { c8StatusEnv with
    getObjectAttributes := fun tid =>
      if tid == 23 then
        Except.ok
          [ { id := 40, name := "Asset Status", defaultTypeName := some "Text",
              typ := some 0, statusTypeValues := Option.none, statusValues := Option.none } ]
      else Except.error (PyExc.assetsAPIError "no such object type") }

/-- Witness for C8: pass-through on a Text-typed status attribute (even for
a nonsense status name), exact resolution to a stringified id, and the
`ValueError` listing the valid names on a miss. -/
theorem resolve_status_name_to_id_spec_witness :
    resolve_status_name_to_id c8TextEnv defaultConfig "Not A Real Status" =
      Except.ok "Not A Real Status" ∧
    resolve_status_name_to_id c8StatusEnv defaultConfig "Retired" = Except.ok "2" ∧
    resolve_status_name_to_id c8StatusEnv defaultConfig "Zombie" =
      Except.error (PyExc.valueError
        ("Status \x27Zombie\x27 not found. Available statuses: [\x27In Use\x27, \x27Retired\x27]")) := by
  refine ⟨?_, ?_, ?_⟩
  · exact (resolve_status_name_to_id_spec c8TextEnv defaultConfig
      { id := 23, name := "Laptops" } _ _ (by rfl) (by rfl) (by rfl)).1
      "Not A Real Status" "Text" (by rfl) (by decide) (by decide)
  · exact ((resolve_status_name_to_id_spec c8StatusEnv defaultConfig
      { id := 23, name := "Laptops" } _ _ (by rfl) (by rfl) (by rfl)).2
      "Retired" "Status" (by rfl) (by rfl)).1
      { id := some 2, name := some "Retired" } (by rfl)
  · exact ((resolve_status_name_to_id_spec c8StatusEnv defaultConfig
      { id := 23, name := "Laptops" } _ _ (by rfl) (by rfl) (by rfl)).2
      "Zombie" "Status" (by rfl) (by rfl)).2 (by rfl)

/-- Target attribute definitions for the schema-mapping witness. -/
def c6TargetDefs : List AttributeDef :=
  [ { id := 11, name := "Serial Number", defaultTypeName := some "Text", typ := some 0,
      statusTypeValues := Option.none, statusValues := Option.none } ]

/-- Source record for the schema-mapping witness: a mapped attribute, an
unmapped attribute and an empty-valued attribute. -/
def c6SourceObject : AssetObject :=
  { id := 5, objectKey := "HW-0100", objectTypeId := 23,
    attributes :=
      [ { objectTypeAttributeName := some "Serial Number",
          objectTypeAttributeType := some 0, objectTypeAttributeId := some 11,
          objectAttributeValues :=
            [ { value := some "SN-1", displayValue := some "SN-1",
                searchValue := Option.none, referencedObjectKey := Option.none } ],
          name := Option.none, values := [] },
        { objectTypeAttributeName := some "Legacy Field",
          objectTypeAttributeType := some 0, objectTypeAttributeId := some 12,
          objectAttributeValues :=
            [ { value := some "x", displayValue := some "x",
                searchValue := Option.none, referencedObjectKey := Option.none } ],
          name := Option.none, values := [] },
        { objectTypeAttributeName := some "Empty Field",
          objectTypeAttributeType := some 0, objectTypeAttributeId := some 13,
          objectAttributeValues := [], name := Option.none, values := [] } ] }

/-- Witness for C6 at a concrete record: the unmapped name has no target
definition, the count bound holds, and dropping the empty-valued attribute
leaves the result unchanged. -/
theorem map_attributes_between_types_spec_witness :
    (∀ d ∈ c6TargetDefs, ¬ d.name = "Legacy Field") ∧
    ((map_attributes_between_types c6TargetDefs [] c6SourceObject).1.length +
        (map_attributes_between_types c6TargetDefs [] c6SourceObject).2.2.length ≤
      (c6SourceObject.attributes.filter (fun a => !a.objectAttributeValues.isEmpty)).length) ∧
    (map_attributes_between_types c6TargetDefs []
        { c6SourceObject with attributes :=
            c6SourceObject.attributes.filter (fun a => !a.objectAttributeValues.isEmpty) } =
      map_attributes_between_types c6TargetDefs [] c6SourceObject) := by
  refine ⟨?_, (map_attributes_between_types_spec c6TargetDefs [] c6SourceObject).2.1,
    (map_attributes_between_types_spec c6TargetDefs [] c6SourceObject).2.2⟩
  exact (map_attributes_between_types_spec c6TargetDefs [] c6SourceObject).1
    "Legacy Field" (by decide)

/-- The row loop of `parse_serial_numbers_from_csv`: each row's
`SERIAL_NUMBER` cell is stripped, empty cells are skipped (with a warning),
and kept cells are upper-cased with all spaces removed, in row order. -/
def collectSerialNumbers : List String → List String
  | [] => []
  | row :: rest =>
    if !(pyStrip row == "") then
      removeSpaces (pyUpper (pyStrip row)) :: collectSerialNumbers rest
    else collectSerialNumbers rest

/-- `list(dict.fromkeys(serial_numbers))`: deduplication keeping the first
occurrence, implemented as the source does via an insertion-ordered key
set. -/
def dedupFirstGo (seen : List String) : List String → List String
  | [] => []
  | x :: xs =>
    if x ∈ seen then dedupFirstGo seen xs
    else x :: dedupFirstGo (x :: seen) xs

/-- `AssetManager.parse_serial_numbers_from_csv`, applied to the parsed CSV
header (`reader.fieldnames`) and the `SERIAL_NUMBER` column of the parsed
rows — the file/encoding handling around it is transport glue.  A missing
`SERIAL_NUMBER` column is a `ValidationError` naming the columns found; an
all-empty column is a `ValidationError`; otherwise the normalized,
first-occurrence-deduplicated serial numbers are returned. -/
def parse_serial_numbers_from_csv (fieldnames : List String) (rows : List String) :
    Except PyExc (List String) :=
  if !(fieldnames.contains "SERIAL_NUMBER") then
    Except.error (PyExc.validationError
      ("CSV file must contain \x27SERIAL_NUMBER\x27 column. Available columns: " ++
        String.intercalate ", " fieldnames))
  else
    if (collectSerialNumbers rows).isEmpty then
      Except.error (PyExc.validationError "No valid serial numbers found in CSV file")
    else
      Except.ok (dedupFirstGo [] (collectSerialNumbers rows))

/-- The spec-side normalization pipeline, stated with independent list
combinators: trim, drop empties, upper-case and remove spaces, then
de-duplicate keeping first occurrences (via an accumulator fold). -/
def csvSpecPipeline (rows : List String) : List String :=
  (((rows.map pyStrip).filter (fun r => !(r == ""))).map
    (fun r => removeSpaces (pyUpper r))).foldl
      (fun acc x => if x ∈ acc then acc else acc ++ [x]) []

theorem collectSerialNumbers_eq_pipeline (rows : List String) :
    collectSerialNumbers rows =
      ((rows.map pyStrip).filter (fun r => !(r == ""))).map
        (fun r => removeSpaces (pyUpper r)) := by
  induction rows with
  | nil => rfl
  | cons row rest ih =>
    simp only [collectSerialNumbers, List.map_cons, List.filter_cons]
    by_cases h : (!(pyStrip row == "")) = true
    · rw [if_pos h, h, ih]
      simp
    · have hf : (!(pyStrip row == "")) = false := by simpa using h
      rw [if_neg h, hf, ih]
      simp

theorem dedupFirstGo_congr (xs : List String) : ∀ s1 s2 : List String,
    (∀ y, y ∈ s1 ↔ y ∈ s2) → dedupFirstGo s1 xs = dedupFirstGo s2 xs := by
  induction xs with
  | nil => intro s1 s2 _; rfl
  | cons x xs ih =>
    intro s1 s2 hmem
    simp only [dedupFirstGo]
    by_cases hx : x ∈ s2
    · rw [if_pos ((hmem x).mpr hx), if_pos hx]
      exact ih s1 s2 hmem
    · rw [if_neg (fun hc => hx ((hmem x).mp hc)), if_neg hx]
      congr 1
      exact ih (x :: s1) (x :: s2) (by intro y; simp [List.mem_cons, hmem y])

theorem foldl_dedup_eq (xs : List String) : ∀ acc : List String,
    xs.foldl (fun a x => if x ∈ a then a else a ++ [x]) acc = acc ++ dedupFirstGo acc xs := by
  induction xs with
  | nil => intro acc; simp [dedupFirstGo]
  | cons x xs ih =>
    intro acc
    simp only [List.foldl_cons, dedupFirstGo]
    by_cases hx : x ∈ acc
    · rw [if_pos hx, if_pos hx]
      exact ih acc
    · rw [if_neg hx, if_neg hx]
      rw [ih (acc ++ [x])]
      rw [dedupFirstGo_congr xs (acc ++ [x]) (x :: acc)
        (by intro y; simp [List.mem_append, List.mem_cons, Or.comm])]
      simp

/-- C9: parsing returns the `SERIAL_NUMBER` column trimmed, upper-cased,
spaces removed, empties dropped and de-duplicated keeping first occurrences
(stated against an independently phrased pipeline); a header without the
`SERIAL_NUMBER` column is a `ValidationError` naming the columns that were
found; and the spec's example column yields exactly
`["AB-123", "CD456"]`. -/
theorem parse_serial_numbers_from_csv_spec (fieldnames : List String) (rows : List String) :
    (¬ "SERIAL_NUMBER" ∈ fieldnames →
      parse_serial_numbers_from_csv fieldnames rows =
        Except.error (PyExc.validationError
          ("CSV file must contain \x27SERIAL_NUMBER\x27 column. Available columns: " ++
            String.intercalate ", " fieldnames))) ∧
    ("SERIAL_NUMBER" ∈ fieldnames →
      parse_serial_numbers_from_csv fieldnames rows =
        if ((rows.map pyStrip).filter (fun r => !(r == ""))).isEmpty then
          Except.error (PyExc.validationError "No valid serial numbers found in CSV file")
        else Except.ok (csvSpecPipeline rows)) ∧
    (parse_serial_numbers_from_csv ["SERIAL_NUMBER"] [" ab-123", "AB-123", "", "cd 456"] =
      Except.ok ["AB-123", "CD456"]) := by
  refine ⟨?_, ?_, by rfl⟩
  · intro h
    unfold parse_serial_numbers_from_csv
    rw [if_pos (by simpa using h)]
  · intro h
    unfold parse_serial_numbers_from_csv
    rw [if_neg (by simpa using h)]
    rw [collectSerialNumbers_eq_pipeline]
    by_cases he : (((rows.map pyStrip).filter (fun r => !(r == ""))).isEmpty) = true
    · rw [if_pos (by simpa using he), if_pos he]
    · have hf := he
      rw [if_neg (by simpa using he), if_neg hf]
      unfold csvSpecPipeline
      rw [foldl_dedup_eq]
      simp [collectSerialNumbers_eq_pipeline]

/-- Witness for C9: the missing-column error at a concrete header, and the
normal path at the spec's example, both obtained from
`parse_serial_numbers_from_csv_spec`. -/
theorem parse_serial_numbers_from_csv_spec_witness :
    parse_serial_numbers_from_csv ["ASSET_TAG", "OWNER"] ["X1"] =
      Except.error (PyExc.validationError
        ("CSV file must contain \x27SERIAL_NUMBER\x27 column. Available columns: " ++
          "ASSET_TAG, OWNER")) ∧
    parse_serial_numbers_from_csv ["SERIAL_NUMBER"] [" ab-123", "AB-123", "", "cd 456"] =
      Except.ok ["AB-123", "CD456"] := by
  constructor
  · have h := (parse_serial_numbers_from_csv_spec ["ASSET_TAG", "OWNER"] ["X1"]).1 (by decide)
    simpa using h
  · exact (parse_serial_numbers_from_csv_spec [] []).2.2

/-- The backend mutation calls issued by `migrate_object_to_type`, in call
order. -/
inductive BackendEvent where
  | deleteCall : Nat → BackendEvent
  | createCall : Nat → BackendEvent
deriving Repr, BEq, DecidableEq

/-- The `migration_result` dictionary of `migrate_object_to_type`. -/
structure MigRecord where
  source_object_key : String
  source_object_id : Nat
  source_object_type_id : Nat
  target_object_type_id : Nat
  new_object_key : Option String
  new_object_id : Option Nat
  mapped_attributes : Nat
  warnings : List String
  unmapped_attributes : List String
  original_deleted : Bool
  success : Bool
  error : Option String
deriving Repr, BEq, DecidableEq

/-- A call that either returns a value or raises an exception. -/
inductive Outcome (α : Type) where
  | ret : α → Outcome α
  | raise : PyExc → Outcome α
deriving Repr, BEq, DecidableEq

/-- `map_attributes_between_types` including its one collaborator call
(fetching the target type's attribute definitions). -/
def map_attributes_between_types_env (env : ClientEnv) (source_attributes : List AttributeDef)
    (source_object_data : AssetObject) (target_object_type_id : Nat) :
    Except PyExc (List AttributeUpdate × List String × List String) :=
  match env.getObjectAttributes target_object_type_id with
  | Except.error e => Except.error e
  | Except.ok target_attributes =>
    Except.ok (map_attributes_between_types target_attributes source_attributes source_object_data)

/-- The outer `except Exception` of `migrate_object_to_type`: every failure
is re-raised as `JiraAssetsAPIError(f"Migration failed for {key}: {e}")`. -/
def migrationFailure (source_object_key : String) (e : PyExc) : PyExc :=
  PyExc.assetsAPIError ("Migration failed for " ++ source_object_key ++ ": " ++ e.msg)

/-- The create step of `migrate_object_to_type`, shared by the
delete-original and keep-original paths; `tr` is the event trace so far. -/
def migrateCreateStep (env : ClientEnv) (base : MigRecord)
    (mapped_attrs : List AttributeUpdate) (orig_deleted : Bool) (tr : List BackendEvent) :
    Outcome MigRecord × List BackendEvent :=
  match env.createObject base.target_object_type_id mapped_attrs with
  | Except.error e =>
    (Outcome.raise (migrationFailure base.source_object_key e),
      tr ++ [BackendEvent.createCall base.target_object_type_id])
  | Except.ok new_object =>
    (Outcome.ret { base with
        new_object_key := some new_object.objectKey,
        new_object_id := some new_object.id,
        original_deleted := orig_deleted,
        success := true },
      tr ++ [BackendEvent.createCall base.target_object_type_id])

/-- The initial `migration_result` dictionary. -/
def migBase (source_object : AssetObject) (target_object_type_id : Nat) : MigRecord :=
  { source_object_key := source_object.objectKey
    source_object_id := source_object.id
    source_object_type_id := source_object.objectTypeId
    target_object_type_id := target_object_type_id
    new_object_key := Option.none, new_object_id := Option.none
    mapped_attributes := 0, warnings := [], unmapped_attributes := []
    original_deleted := false, success := false, error := Option.none }

/-- `JiraAssetsClient.migrate_object_to_type(source_object,
target_object_type_id, delete_original)`: map attributes, then — when
`delete_original` and the source id are truthy — delete the original
*before* creating the new record (a delete failure raises and aborts), then
create the new record in the target type.  The second component is the
ordered trace of delete/create calls issued.  Any failure is re-raised
wrapped by the outer handler as a `JiraAssetsAPIError`. -/
def migrate_object_to_type (env : ClientEnv) (source_object : AssetObject)
    (target_object_type_id : Nat) (delete_original : Bool) :
    Outcome MigRecord × List BackendEvent :=
  match env.getObjectAttributes source_object.objectTypeId with
  | Except.error e => (Outcome.raise (migrationFailure source_object.objectKey e), [])
  | Except.ok source_attributes =>
    match map_attributes_between_types_env env source_attributes source_object
        target_object_type_id with
    | Except.error e => (Outcome.raise (migrationFailure source_object.objectKey e), [])
    | Except.ok mwu =>
      if delete_original && !(source_object.id == 0) then
        match env.deleteObject source_object.id with
        | Except.error e =>
          (Outcome.raise (migrationFailure source_object.objectKey
              (PyExc.assetsAPIError ("Failed to delete original object " ++
                source_object.objectKey ++ ": " ++ e.msg))),
            [BackendEvent.deleteCall source_object.id])
        | Except.ok _ =>
          migrateCreateStep env
            { migBase source_object target_object_type_id with
                mapped_attributes := mwu.1.length
                warnings := mwu.2.1
                unmapped_attributes := mwu.2.2 }
            mwu.1 true [BackendEvent.deleteCall source_object.id]
      else
        migrateCreateStep env
          { migBase source_object target_object_type_id with
              mapped_attributes := mwu.1.length
              warnings := mwu.2.1
              unmapped_attributes := mwu.2.2 }
          mwu.1 false []

/-- C7: with `delete_original = true` (and a truthy source id), whenever the
create call appears in the backend trace it is preceded by the delete of the
source record — the trace is exactly `[delete, create]` — and if the delete
fails the migration raises a `JiraAssetsAPIError` and the create call is
never issued. -/
theorem migrate_object_to_type_delete_before_create (env : ClientEnv) (obj : AssetObject)
    (tt : Nat) (h0 : ¬ obj.id = 0) :
    ((BackendEvent.createCall tt) ∈ (migrate_object_to_type env obj tt true).2 →
      (migrate_object_to_type env obj tt true).2 =
        [BackendEvent.deleteCall obj.id, BackendEvent.createCall tt]) ∧
    (∀ m, env.deleteObject obj.id = Except.error m →
      (∃ s, (migrate_object_to_type env obj tt true).1 =
        Outcome.raise (PyExc.assetsAPIError s)) ∧
      ¬ (BackendEvent.createCall tt) ∈ (migrate_object_to_type env obj tt true).2) := by
  have hcond : (true && !(obj.id == 0)) = true := by simp [h0]
  unfold migrate_object_to_type
  cases hsa : env.getObjectAttributes obj.objectTypeId with
  | error e =>
    exact ⟨by intro hmem; simp at hmem, fun m _ => ⟨⟨_, rfl⟩, by simp⟩⟩
  | ok source_attributes =>
    dsimp only
    cases hmap : map_attributes_between_types_env env source_attributes obj tt with
    | error e =>
      exact ⟨by intro hmem; simp at hmem, fun m _ => ⟨⟨_, rfl⟩, by simp⟩⟩
    | ok mwu =>
      dsimp only
      simp only [hcond, if_true]
      cases hdel : env.deleteObject obj.id with
      | error e =>
        refine ⟨by intro hmem; simp at hmem, fun m _ => ⟨⟨_, rfl⟩, by simp⟩⟩
      | ok b =>
        dsimp only
        refine ⟨?_, ?_⟩
        · intro _
          unfold migrateCreateStep
          dsimp only [migBase]
          cases hc : env.createObject tt mwu.1 with
          | error e => rfl
          | ok new_object => rfl
        · intro m hm
          exact absurd hm (by simp)

/-- A fully stubbed environment in which the migration succeeds end to
end. -/
def c7OkEnv : ClientEnv :=
  { objectSchemas := Except.ok []
    objectTypes := fun _ => Except.ok []
    getObjectAttributes := fun _ => Except.ok []
    getObjectByKey := fun k =>
      Except.error (PyExc.assetNotFound ("Asset not found [get object " ++ k ++ "]"))
    findObjectsByAql := fun _ _ _ => Except.ok []
    createObject := fun tid _ =>
      Except.ok { id := 900, objectKey := "IT-900", objectTypeId := tid, attributes := [] }
    deleteObject := fun _ => Except.ok true
    modelsCache := Option.none
    suppliersCache := Option.none }

/-- The same environment with a failing delete endpoint. -/
def c7DeleteFailEnv : ClientEnv :=
  { c7OkEnv with deleteObject := fun _ => Except.error (PyExc.assetsAPIError "HTTP 500") }

/-- The source record used in the migration witnesses. -/
def c7SourceObject : AssetObject :=
  { id := 77, objectKey := "HW-0077", objectTypeId := 23, attributes := [] }

/-- Witness for C7: on the successful path the trace is exactly
`[delete 77, create 42]`; on the failing-delete path the migration raises
and no create call appears, both obtained from
`migrate_object_to_type_delete_before_create`. -/
theorem migrate_object_to_type_delete_before_create_witness :
    (migrate_object_to_type c7OkEnv c7SourceObject 42 true).2 =
      [BackendEvent.deleteCall 77, BackendEvent.createCall 42] ∧
    ((∃ s, (migrate_object_to_type c7DeleteFailEnv c7SourceObject 42 true).1 =
        Outcome.raise (PyExc.assetsAPIError s)) ∧
      ¬ (BackendEvent.createCall 42) ∈
        (migrate_object_to_type c7DeleteFailEnv c7SourceObject 42 true).2) := by
  constructor
  · exact (migrate_object_to_type_delete_before_create c7OkEnv c7SourceObject 42
      (by decide)).1 (by
        have ht : (migrate_object_to_type c7OkEnv c7SourceObject 42 true).2 =
            [BackendEvent.deleteCall 77, BackendEvent.createCall 42] := rfl
        rw [ht]
        exact List.mem_cons_of_mem _ (List.mem_cons_self _ _))
  · exact (migrate_object_to_type_delete_before_create c7DeleteFailEnv c7SourceObject 42
      (by decide)).2 (PyExc.assetsAPIError "HTTP 500") (by rfl)

/-- The AQL query built by `find_object_by_serial_number` (the attribute
name "Serial Number" is hardcoded there, not read from config). -/
def serialAql (serial_number : String) : String :=
  "\x22Serial Number\x22 = \x22" ++ serial_number ++ "\x22"

/-- The object-type filter loop of `find_object_by_serial_number`: fetch
each AQL hit's complete object (skipping falsy keys and swallowing
per-object fetch errors) and keep those whose object type matches. -/
def collectMatchingBySerial (env : ClientEnv) (object_type_id : Nat) :
    List AssetObject → List AssetObject
  | [] => []
  | obj :: rest =>
    if obj.objectKey == "" then collectMatchingBySerial env object_type_id rest
    else
      match env.getObjectByKey obj.objectKey with
      | Except.error _ => collectMatchingBySerial env object_type_id rest
      | Except.ok complete_obj =>
        if complete_obj.objectTypeId == object_type_id then
          complete_obj :: collectMatchingBySerial env object_type_id rest
        else collectMatchingBySerial env object_type_id rest

/-- The outer handler of `find_object_by_serial_number`:
`AssetNotFoundError` and `JiraAssetsAPIError` are re-raised as-is, anything
else is wrapped in a `JiraAssetsAPIError`. -/
def wrapFindBySerialError (serial_number : String) (e : PyExc) : PyExc :=
  if e.isJiraAssetsAPIError then e
  else PyExc.assetsAPIError ("Unexpected error finding asset with serial number \x27" ++
    serial_number ++ "\x27: " ++ e.msg)

/-- `JiraAssetsClient.find_object_by_serial_number(serial_number,
object_type_id)`: AQL query on the serial (limit 10), `AssetNotFoundError`
when the query or the type filter leaves nothing, else the first matching
complete object. -/
def find_object_by_serial_number (env : ClientEnv) (serial_number : String)
    (object_type_id : Nat) : Except PyExc AssetObject :=
  match env.findObjectsByAql (serialAql serial_number) 0 10 with
  | Except.error e => Except.error (wrapFindBySerialError serial_number e)
  | Except.ok objects =>
    if objects.isEmpty then
      Except.error (PyExc.assetNotFound
        ("No asset found with serial number \x27" ++ serial_number ++ "\x27"))
    else
      match collectMatchingBySerial env object_type_id objects with
      | [] =>
        Except.error (PyExc.assetNotFound
          ("No asset found with serial number \x27" ++ serial_number ++
            "\x27 in object type " ++ toString object_type_id))
      | complete_asset :: _ => Except.ok complete_asset

/-- One per-serial result row of `process_asset_migration`. -/
structure MigLoopResult where
  serial_number : String
  source_object_type_id : Nat
  target_object_type_id : Nat
  source_object_key : Option String
  source_object_id : Option Nat
  new_object_key : Option String
  new_object_id : Option Nat
  mapped_attributes : Nat
  warnings : List String
  unmapped_attributes : List String
  original_deleted : Bool
  success : Bool
  skipped : Bool
  skip_reason : Option String
  error : Option String
  dry_run : Bool
deriving Repr, BEq, DecidableEq

/-- The fresh result dictionary of one loop iteration. -/
def migLoopBase (source_object_type_id target_object_type_id : Nat)
    (dry_run delete_original : Bool) (serial_number : String) : MigLoopResult :=
  { serial_number := serial_number
    source_object_type_id := source_object_type_id
    target_object_type_id := target_object_type_id
    source_object_key := Option.none, source_object_id := Option.none
    new_object_key := Option.none, new_object_id := Option.none
    mapped_attributes := 0, warnings := [], unmapped_attributes := []
    original_deleted := if !dry_run then delete_original else false
    success := false, skipped := false, skip_reason := Option.none
    error := Option.none, dry_run := dry_run }

/-- The error message of the per-record `except Exception` handler in the
migration loop. -/
def migLoopFailMsg (serial_number : String) (e : PyExc) : String :=
  "Failed to process asset with serial number \x27" ++ serial_number ++ "\x27: " ++ e.msg

/-- The body of one iteration of the `process_asset_migration` loop: find
the asset by serial (not-found is a skip), migrate it (or simulate the
mapping when `dry_run`), and catch every exception into the row's `error`
field. -/
def processOneMigration (env : ClientEnv) (source_type_name : String)
    (source_object_type_id target_object_type_id : Nat) (dry_run delete_original : Bool)
    (serial_number : String) : MigLoopResult :=
  match find_object_by_serial_number env serial_number source_object_type_id with
  | Except.error (PyExc.assetNotFound _) =>
    { migLoopBase source_object_type_id target_object_type_id dry_run delete_original
        serial_number with
      skipped := true
      skip_reason := some ("Asset with serial number \x27" ++ serial_number ++
        "\x27 not found in source object type " ++ source_type_name) }
  | Except.error e =>
    { migLoopBase source_object_type_id target_object_type_id dry_run delete_original
        serial_number with
      error := some (migLoopFailMsg serial_number e) }
  | Except.ok source_asset =>
    if !dry_run then
      match (migrate_object_to_type env source_asset target_object_type_id delete_original).1 with
      | Outcome.raise e =>
        { migLoopBase source_object_type_id target_object_type_id dry_run delete_original
            serial_number with
          source_object_key := some source_asset.objectKey
          source_object_id := some source_asset.id
          error := some (migLoopFailMsg serial_number e) }
      | Outcome.ret mr =>
        { migLoopBase source_object_type_id target_object_type_id dry_run delete_original
            serial_number with
          source_object_key := some source_asset.objectKey
          source_object_id := some source_asset.id
          new_object_key := mr.new_object_key
          new_object_id := mr.new_object_id
          mapped_attributes := mr.mapped_attributes
          warnings := mr.warnings
          unmapped_attributes := mr.unmapped_attributes
          original_deleted := mr.original_deleted
          success := true }
    else
      match env.getObjectAttributes source_object_type_id with
      | Except.error e =>
        { migLoopBase source_object_type_id target_object_type_id dry_run delete_original
            serial_number with
          source_object_key := some source_asset.objectKey
          source_object_id := some source_asset.id
          error := some (migLoopFailMsg serial_number e) }
      | Except.ok source_attributes =>
        match map_attributes_between_types_env env source_attributes source_asset
            target_object_type_id with
        | Except.error e =>
          { migLoopBase source_object_type_id target_object_type_id dry_run delete_original
              serial_number with
            source_object_key := some source_asset.objectKey
            source_object_id := some source_asset.id
            error := some (migLoopFailMsg serial_number e) }
        | Except.ok mwu =>
          { migLoopBase source_object_type_id target_object_type_id dry_run delete_original
              serial_number with
            source_object_key := some source_asset.objectKey
            source_object_id := some source_asset.id
            mapped_attributes := mwu.1.length
            warnings := mwu.2.1
            unmapped_attributes := mwu.2.2
            success := true }

/-- The per-serial loop of `AssetManager.process_asset_migration` (steps
after CSV parsing and object-type validation): one result row is appended
for every serial number, in order. -/
def process_asset_migration (env : ClientEnv) (source_type_name : String)
    (source_object_type_id target_object_type_id : Nat) (dry_run delete_original : Bool) :
    List String → List MigLoopResult
  | [] => []
  | serial_number :: rest =>
    processOneMigration env source_type_name source_object_type_id target_object_type_id
        dry_run delete_original serial_number ::
      process_asset_migration env source_type_name source_object_type_id
        target_object_type_id dry_run delete_original rest

theorem process_asset_migration_eq_map (env : ClientEnv) (stn : String) (sid tid : Nat)
    (dry del : Bool) (serials : List String) :
    process_asset_migration env stn sid tid dry del serials =
      serials.map (processOneMigration env stn sid tid dry del) := by
  induction serials with
  | nil => rfl
  | cons x xs ih => simp [process_asset_migration, ih]

/-- C3: in the bulk migration loop, if the fetch of record `k` raises an
unexpected exception, the loop still returns exactly `N` results; result
`k` carries that error (converted by the per-record handler) with
`success = false`; and every result — in particular each of the other
`N - 1` — equals the per-record outcome computed from its own serial alone,
unaffected by `k`'s failure. -/
theorem process_asset_migration_error_isolation (env : ClientEnv) (stn : String)
    (sid tid : Nat) (dry del : Bool) (serials : List String) (k : Nat) (m : String)
    (hk : k < serials.length)
    (hfail : env.findObjectsByAql (serialAql (serials.get ⟨k, hk⟩)) 0 10 =
      Except.error (PyExc.otherError m)) :
    (process_asset_migration env stn sid tid dry del serials).length = serials.length ∧
    (∀ j, ∀ hj : j < serials.length,
      (process_asset_migration env stn sid tid dry del serials)[j]? =
        some (processOneMigration env stn sid tid dry del (serials.get ⟨j, hj⟩))) ∧
    ((process_asset_migration env stn sid tid dry del serials)[k]? =
      some { migLoopBase sid tid dry del (serials.get ⟨k, hk⟩) with
        error := some (migLoopFailMsg (serials.get ⟨k, hk⟩)
          (PyExc.assetsAPIError ("Unexpected error finding asset with serial number \x27" ++
            serials.get ⟨k, hk⟩ ++ "\x27: " ++ m))) }) := by
  have hmap := process_asset_migration_eq_map env stn sid tid dry del serials
  refine ⟨by rw [hmap]; simp, ?_, ?_⟩
  · intro j hj
    rw [hmap]
    rw [List.getElem?_map]
    have : serials[j]? = some (serials.get ⟨j, hj⟩) := by
      rw [List.getElem?_eq_getElem hj]
      rfl
    rw [this]
    rfl
  · rw [hmap, List.getElem?_map]
    have hks : serials[k]? = some (serials.get ⟨k, hk⟩) := by
      rw [List.getElem?_eq_getElem hk]
      rfl
    rw [hks]
    simp only [Option.map]
    congr 1
    unfold processOneMigration find_object_by_serial_number
    rw [hfail]
    rfl

/-- An environment whose serial lookup raises an unexpected exception for
serial "BAD-1" only. -/
def c3Env : ClientEnv :=
  { c7OkEnv with
    findObjectsByAql := fun q _ _ =>
      if q == serialAql "BAD-1" then Except.error (PyExc.otherError "connection reset")
      else Except.ok [] }

/-- Witness for C3 on the batch `["OK-1", "BAD-1", "OK-2"]` whose middle
record's fetch raises: three results come back, the middle one is the error
row, and the outer two equal their independent per-record outcomes. -/
theorem process_asset_migration_error_isolation_witness :
    (process_asset_migration c3Env "Laptops" 23 42 true false
        ["OK-1", "BAD-1", "OK-2"]).length = 3 ∧
    (process_asset_migration c3Env "Laptops" 23 42 true false
        ["OK-1", "BAD-1", "OK-2"])[0]? =
      some (processOneMigration c3Env "Laptops" 23 42 true false "OK-1") ∧
    (process_asset_migration c3Env "Laptops" 23 42 true false
        ["OK-1", "BAD-1", "OK-2"])[2]? =
      some (processOneMigration c3Env "Laptops" 23 42 true false "OK-2") ∧
    (process_asset_migration c3Env "Laptops" 23 42 true false
        ["OK-1", "BAD-1", "OK-2"])[1]? =
      some { migLoopBase 23 42 true false "BAD-1" with
        error := some (migLoopFailMsg "BAD-1"
          (PyExc.assetsAPIError
            ("Unexpected error finding asset with serial number \x27BAD-1\x27: " ++
              "connection reset"))) } := by
  have h := process_asset_migration_error_isolation c3Env "Laptops" 23 42 true false
    ["OK-1", "BAD-1", "OK-2"] 1 "connection reset" (by decide) (by rfl)
  exact ⟨h.1, h.2.1 0 (by decide), h.2.1 2 (by decide), h.2.2⟩

/-- The collaborator interface used by the per-record reconciliation
workflows, threaded through an abstract backend state `σ` (reads leave the
state unchanged; `updateObject` returns the updated object and the new
state, modelling that a persisted write changes what later fetches see). -/
structure AMEnv (σ : Type) where
  getObjectByKey : String → σ → Except PyExc AssetObject
  getObjectAttributes : Nat → σ → Except PyExc (List AttributeDef)
  updateObject : Nat → List AttributeUpdate → σ → (Except PyExc AssetObject) × σ
  lookupAccountId : String → σ → Except PyExc String
  validateAccountId : String → σ → Bool

/-- `AssetManager.extract_user_email`: extract, then normalize by
`str(...).strip().lower()` when truthy. -/
def extract_user_email (cfg : Config) (asset_data : AssetObject) : Option String :=
  if (extract_attribute_value asset_data cfg.userEmailAttribute).isTruthy then
    some (pyLower (pyStrip (extract_attribute_value asset_data cfg.userEmailAttribute).pyStr))
  else Option.none

/-- `AssetManager.extract_current_assignee`: `str(...)` of the extracted
value when truthy. -/
def extract_current_assignee (cfg : Config) (asset_data : AssetObject) : Option String :=
  if (extract_attribute_value asset_data cfg.assigneeAttribute).isTruthy then
    some (extract_attribute_value asset_data cfg.assigneeAttribute).pyStr
  else Option.none

/-- `AssetManager.extract_retirement_date`. -/
def extract_retirement_date (cfg : Config) (asset_data : AssetObject) : Option String :=
  if (extract_attribute_value asset_data cfg.retirementDateAttribute).isTruthy then
    some (extract_attribute_value asset_data cfg.retirementDateAttribute).pyStr
  else Option.none

/-- `AssetManager.extract_asset_status`. -/
def extract_asset_status (cfg : Config) (asset_data : AssetObject) : Option String :=
  if (extract_attribute_value asset_data cfg.assetStatusAttribute).isTruthy then
    some (extract_attribute_value asset_data cfg.assetStatusAttribute).pyStr
  else Option.none

/-- `JiraAssetsClient.create_attribute_update(attribute_name, value,
object_type_id)`: look up the definition id by name (via the attribute
fetch) and pair it with the single stringified value. -/
def create_attribute_update {σ : Type} (env : AMEnv σ) (s : σ) (attribute_name : String)
    (value : String) (object_type_id : Nat) : Except PyExc AttributeUpdate :=
  match env.getObjectAttributes object_type_id s with
  | Except.error e => Except.error e
  | Except.ok attributes =>
    match attributes.find? (fun a => a.name == attribute_name) with
    | some target_attribute =>
      Except.ok { objectTypeAttributeId := target_attribute.id,
                  objectAttributeValues := [value] }
    | Option.none =>
      Except.error (PyExc.attributeNotFound ("Attribute \x27" ++ attribute_name ++
        "\x27 not found in object type " ++ toString object_type_id))

/-- The `except` clauses of `process_asset`: `AssetNotFoundError`,
`ValidationError` and `AssetUpdateError` are re-raised as-is, everything
else is wrapped in `AssetUpdateError(f"Unexpected error processing
{object_key}: {e}")`. -/
def processAssetExcHandler (object_key : String) (e : PyExc) : PyExc :=
  match e with
  | PyExc.assetNotFound m => PyExc.assetNotFound m
  | PyExc.validationError m => PyExc.validationError m
  | PyExc.assetUpdateError m => PyExc.assetUpdateError m
  | _ => PyExc.assetUpdateError ("Unexpected error processing " ++ object_key ++ ": " ++ e.msg)

/-- The analogous handler of `process_retirement`. -/
def processRetirementExcHandler (object_key : String) (e : PyExc) : PyExc :=
  match e with
  | PyExc.assetNotFound m => PyExc.assetNotFound m
  | PyExc.validationError m => PyExc.validationError m
  | PyExc.assetUpdateError m => PyExc.assetUpdateError m
  | _ => PyExc.assetUpdateError ("Unexpected error processing retirement for " ++
      object_key ++ ": " ++ e.msg)

/-- The result dictionary of `process_asset`. -/
structure AssigneeResult where
  object_key : String
  success : Bool
  dry_run : Bool
  user_email : Option String
  account_id : Option String
  current_assignee : Option String
  new_assignee : Option String
  updated : Bool
  skipped : Bool
  skip_reason : Option String
  error : Option String
deriving Repr, BEq, DecidableEq

/-- The initial `process_asset` result dictionary. -/
def asgBase (object_key : String) (dry_run : Bool) : AssigneeResult :=
  { object_key := object_key, success := false, dry_run := dry_run
    user_email := Option.none, account_id := Option.none
    current_assignee := Option.none, new_assignee := Option.none
    updated := false, skipped := false, skip_reason := Option.none, error := Option.none }

/-- `AssetManager.process_asset(object_key, dry_run)` over an abstract
backend state: fetch, extract and normalize the user email (`if not
user_email:` — falsy, i.e. absent or normalized to the empty string ⇒
skip, with the falsy email recorded in the result first), extract the
current assignee, look up the account id (not-found/ambiguous ⇒ skip,
other lookup errors ⇒ raise), validate it (inactive ⇒ skip), skip when
the assignee already equals the account id, else build and (unless dry-run)
persist the assignee update and verify the updated assignee is non-null
(null ⇒ raise `AssetUpdateError`).  Returns the outcome, the possibly
updated backend state, and the trace of persisted update calls. -/
def process_asset {σ : Type} (env : AMEnv σ) (cfg : Config) (object_key : String)
    (dry_run : Bool) (s : σ) :
    Outcome AssigneeResult × σ × List (Nat × List AttributeUpdate) :=
  match env.getObjectByKey object_key s with
  | Except.error e => (Outcome.raise (processAssetExcHandler object_key e), s, [])
  | Except.ok asset_data =>
    match extract_user_email cfg asset_data with
    | Option.none =>
      (Outcome.ret { asgBase object_key dry_run with
          skipped := true
          skip_reason := some ("No \x27" ++ cfg.userEmailAttribute ++ "\x27 attribute found") },
        s, [])
    | some user_email =>
      if user_email == "" then
        (Outcome.ret { asgBase object_key dry_run with
            user_email := some user_email
            skipped := true
            skip_reason := some ("No \x27" ++ cfg.userEmailAttribute ++ "\x27 attribute found") },
          s, [])
      else
      match env.lookupAccountId user_email s with
      | Except.error (PyExc.userNotFound m) =>
        (Outcome.ret { asgBase object_key dry_run with
            user_email := some user_email
            current_assignee := extract_current_assignee cfg asset_data
            skipped := true
            skip_reason := some ("User lookup failed: " ++ m) }, s, [])
      | Except.error (PyExc.multipleUsersFound m) =>
        (Outcome.ret { asgBase object_key dry_run with
            user_email := some user_email
            current_assignee := extract_current_assignee cfg asset_data
            skipped := true
            skip_reason := some ("User lookup failed: " ++ m) }, s, [])
      | Except.error e => (Outcome.raise (processAssetExcHandler object_key e), s, [])
      | Except.ok account_id =>
        if !(env.validateAccountId account_id s) then
          (Outcome.ret { asgBase object_key dry_run with
              user_email := some user_email
              current_assignee := extract_current_assignee cfg asset_data
              account_id := some account_id
              skipped := true
              skip_reason := some ("AccountId " ++ account_id ++ " is invalid or inactive") },
            s, [])
        else if extract_current_assignee cfg asset_data == some account_id then
          (Outcome.ret { asgBase object_key dry_run with
              user_email := some user_email
              current_assignee := extract_current_assignee cfg asset_data
              account_id := some account_id
              skipped := true
              skip_reason := some ("Assignee already set to " ++ account_id) }, s, [])
        else if !dry_run then
          match create_attribute_update env s cfg.assigneeAttribute account_id
              asset_data.objectTypeId with
          | Except.error e => (Outcome.raise (processAssetExcHandler object_key e), s, [])
          | Except.ok attribute_update =>
            match env.updateObject asset_data.id [attribute_update] s with
            | (Except.error e, s2) =>
              (Outcome.raise (processAssetExcHandler object_key e), s2,
                [(asset_data.id, [attribute_update])])
            | (Except.ok updated_asset, s2) =>
              match extract_attribute_value updated_asset cfg.assigneeAttribute with
              | PyVal.none =>
                (Outcome.raise (PyExc.assetUpdateError
                    "Update verification failed: assignee is still None after update"),
                  s2, [(asset_data.id, [attribute_update])])
              | _ =>
                (Outcome.ret { asgBase object_key dry_run with
                    success := true
                    user_email := some user_email
                    current_assignee := extract_current_assignee cfg asset_data
                    account_id := some account_id
                    new_assignee := some account_id
                    updated := true }, s2, [(asset_data.id, [attribute_update])])
        else
          (Outcome.ret { asgBase object_key dry_run with
              success := true
              user_email := some user_email
              current_assignee := extract_current_assignee cfg asset_data
              account_id := some account_id
              new_assignee := some account_id }, s, [])

/-- The result dictionary of `process_retirement`. -/
structure RetirementResult where
  object_key : String
  success : Bool
  dry_run : Bool
  retirement_date : Option String
  current_status : Option String
  new_status : String
  updated : Bool
  skipped : Bool
  skip_reason : Option String
  error : Option String
deriving Repr, BEq, DecidableEq

/-- The initial `process_retirement` result dictionary. -/
def retBase (object_key : String) (dry_run : Bool) : RetirementResult :=
  { object_key := object_key, success := false, dry_run := dry_run
    retirement_date := Option.none, current_status := Option.none
    new_status := "Retired", updated := false, skipped := false
    skip_reason := Option.none, error := Option.none }

/-- `AssetManager.process_retirement(object_key, dry_run)`: fetch, extract
the retirement date (absent ⇒ skip), extract the current status (already
exactly `"Retired"` ⇒ skip), else build and (unless dry-run) persist the
status update and verify the updated status equals `"Retired"` exactly
(mismatch ⇒ raise `AssetUpdateError`). -/
def process_retirement {σ : Type} (env : AMEnv σ) (cfg : Config) (object_key : String)
    (dry_run : Bool) (s : σ) :
    Outcome RetirementResult × σ × List (Nat × List AttributeUpdate) :=
  match env.getObjectByKey object_key s with
  | Except.error e => (Outcome.raise (processRetirementExcHandler object_key e), s, [])
  | Except.ok asset_data =>
    match extract_retirement_date cfg asset_data with
    | Option.none =>
      (Outcome.ret { retBase object_key dry_run with
          skipped := true
          skip_reason := some ("No \x27" ++ cfg.retirementDateAttribute ++
            "\x27 attribute found") }, s, [])
    | some retirement_date =>
      if extract_asset_status cfg asset_data == some "Retired" then
        (Outcome.ret { retBase object_key dry_run with
            retirement_date := some retirement_date
            current_status := extract_asset_status cfg asset_data
            skipped := true
            skip_reason := some "Asset already has status \x27Retired\x27" }, s, [])
      else if !dry_run then
        match create_attribute_update env s cfg.assetStatusAttribute "Retired"
            asset_data.objectTypeId with
        | Except.error e => (Outcome.raise (processRetirementExcHandler object_key e), s, [])
        | Except.ok attribute_update =>
          match env.updateObject asset_data.id [attribute_update] s with
          | (Except.error e, s2) =>
            (Outcome.raise (processRetirementExcHandler object_key e), s2,
              [(asset_data.id, [attribute_update])])
          | (Except.ok updated_asset, s2) =>
            if !((extract_attribute_value updated_asset cfg.assetStatusAttribute).eqStr
                "Retired") then
              (Outcome.raise (PyExc.assetUpdateError
                  ("Update verification failed: status is \x27" ++
                    (extract_attribute_value updated_asset cfg.assetStatusAttribute).pyStr ++
                    "\x27 instead of \x27Retired\x27")),
                s2, [(asset_data.id, [attribute_update])])
            else
              (Outcome.ret { retBase object_key dry_run with
                  success := true
                  retirement_date := some retirement_date
                  current_status := extract_asset_status cfg asset_data
                  updated := true }, s2, [(asset_data.id, [attribute_update])])
      else
        (Outcome.ret { retBase object_key dry_run with
            success := true
            retirement_date := some retirement_date
            current_status := extract_asset_status cfg asset_data }, s, [])

/-- C1: `process_asset` raises when the record fetch fails with not-found
and when update verification finds a null assignee after a persisted
update; every skip condition — falsy user email (no user-email attribute,
or a value that normalizes to the empty string), user lookup failed
(not-found or ambiguous), invalid/inactive account, assignee already equal
to the resolved account id — returns normally with `skipped = true` and a
set `skip_reason`, never raising. -/
theorem process_asset_error_policy {σ : Type} (env : AMEnv σ) (cfg : Config)
    (key : String) (dry : Bool) (s : σ) :
    (∀ m, env.getObjectByKey key s = Except.error (PyExc.assetNotFound m) →
      (process_asset env cfg key dry s).1 = Outcome.raise (PyExc.assetNotFound m)) ∧
    (∀ rec, env.getObjectByKey key s = Except.ok rec →
      (extract_user_email cfg rec = Option.none →
        (process_asset env cfg key dry s).1 = Outcome.ret { asgBase key dry with
          skipped := true
          skip_reason := some ("No \x27" ++ cfg.userEmailAttribute ++ "\x27 attribute found") }) ∧
      (extract_user_email cfg rec = some "" →
        (process_asset env cfg key dry s).1 = Outcome.ret { asgBase key dry with
          user_email := some ""
          skipped := true
          skip_reason := some ("No \x27" ++ cfg.userEmailAttribute ++ "\x27 attribute found") }) ∧
      (∀ email, extract_user_email cfg rec = some email → ¬ email = "" →
        (∀ m, (env.lookupAccountId email s = Except.error (PyExc.userNotFound m) ∨
               env.lookupAccountId email s = Except.error (PyExc.multipleUsersFound m)) →
          ∃ r, (process_asset env cfg key dry s).1 = Outcome.ret r ∧
            r.skipped = true ∧ r.skip_reason = some ("User lookup failed: " ++ m)) ∧
        (∀ acc, env.lookupAccountId email s = Except.ok acc →
          (env.validateAccountId acc s = false →
            ∃ r, (process_asset env cfg key dry s).1 = Outcome.ret r ∧
              r.skipped = true ∧
              r.skip_reason = some ("AccountId " ++ acc ++ " is invalid or inactive")) ∧
          (env.validateAccountId acc s = true →
            (extract_current_assignee cfg rec = some acc →
              ∃ r, (process_asset env cfg key dry s).1 = Outcome.ret r ∧
                r.skipped = true ∧
                r.skip_reason = some ("Assignee already set to " ++ acc)) ∧
            (∀ upd updRec s2, ¬ extract_current_assignee cfg rec = some acc → dry = false →
              create_attribute_update env s cfg.assigneeAttribute acc rec.objectTypeId =
                Except.ok upd →
              env.updateObject rec.id [upd] s = (Except.ok updRec, s2) →
              extract_attribute_value updRec cfg.assigneeAttribute = PyVal.none →
              (process_asset env cfg key dry s).1 = Outcome.raise (PyExc.assetUpdateError
                "Update verification failed: assignee is still None after update")))))) := by
  refine ⟨?_, ?_⟩
  · intro m hf
    simp only [process_asset, hf]
    rfl
  · intro rec hf
    refine ⟨?_, ?_, ?_⟩
    · intro he
      simp only [process_asset, hf, he]
    · intro he
      simp only [process_asset, hf, he]
      rfl
    · intro email he hne0
      have hne0b : (email == "") = false := beq_eq_false_iff_ne.mpr hne0
      refine ⟨?_, ?_⟩
      · intro m hm
        rcases hm with hm | hm <;>
          (simp only [process_asset, hf, he, hne0b, Bool.false_eq_true, if_false, hm]
           exact ⟨_, rfl, rfl, rfl⟩)
      · intro acc hacc
        refine ⟨?_, ?_⟩
        · intro hval
          simp only [process_asset, hf, he, hne0b, Bool.false_eq_true, if_false, hacc, hval]
          exact ⟨_, rfl, rfl, rfl⟩
        · intro hval
          refine ⟨?_, ?_⟩
          · intro hcur
            have hb : (extract_current_assignee cfg rec == some acc) = true := by
              simp [hcur]
            simp only [process_asset, hf, he, hne0b, Bool.false_eq_true, if_false, hacc,
              hval, hb]
            exact ⟨_, rfl, rfl, rfl⟩
          · intro upd updRec s2 hcur hdry hupd hupdo hnone
            have hb : (extract_current_assignee cfg rec == some acc) = false := by
              simp only [beq_eq_false_iff_ne, ne_eq]
              exact hcur
            subst hdry
            simp only [process_asset, hf, he, hne0b, Bool.false_eq_true, if_false, hacc,
              hval, hb, hupd, hupdo, hnone]
            rfl

/-- A one-field stub of the reconciliation collaborators over a unit
backend state. -/
def unitAMEnv (fetch : Except PyExc AssetObject) (defs : List AttributeDef)
    (upd : Except PyExc AssetObject) (lookup : String → Except PyExc String)
    (validate : Bool) : AMEnv Unit :=
  { getObjectByKey := fun _ _ => fetch
    getObjectAttributes := fun _ _ => Except.ok defs
    updateObject := fun _ _ u => (upd, u)
    lookupAccountId := fun e _ => lookup e
    validateAccountId := fun _ _ => validate }

/-- A record with no attributes at all (no user email). -/
def recNoEmail : AssetObject :=
  { id := 1, objectKey := "HW-101", objectTypeId := 23, attributes := [] }

/-- A user-email attribute instance carrying one value. -/
def emailAttrEntry (e : String) : ObjectAttribute :=
  { objectTypeAttributeName := some "User Email", objectTypeAttributeType := some 0
    objectTypeAttributeId := some 1
    objectAttributeValues :=
      [{ value := some e, displayValue := some e
         searchValue := Option.none, referencedObjectKey := Option.none }]
    name := Option.none, values := [] }

/-- An assignee attribute instance with the given values. -/
def assigneeAttrEntry (vs : List AttrValue) : ObjectAttribute :=
  { objectTypeAttributeName := some "Assignee", objectTypeAttributeType := some 2
    objectTypeAttributeId := some 2
    objectAttributeValues := vs
    name := Option.none, values := [] }

/-- A record whose user-email value is whitespace-only: it is truthy as an
attribute value, but normalizes to the empty string. -/
def recWsEmail : AssetObject :=
  { id := 4, objectKey := "HW-103", objectTypeId := 23
    attributes := [emailAttrEntry "   ", assigneeAttrEntry []] }

/-- A record with a user email and no assignee. -/
def recWithEmail : AssetObject :=
  { id := 2, objectKey := "HW-100", objectTypeId := 23
    attributes := [emailAttrEntry "alice@example.com", assigneeAttrEntry []] }

/-- A record whose assignee already displays as `acc-bob`. -/
def recAssigned : AssetObject :=
  { id := 3, objectKey := "HW-102", objectTypeId := 23
    attributes :=
      [ emailAttrEntry "bob@example.com",
        assigneeAttrEntry
          [{ value := some "acc-bob", displayValue := some "acc-bob"
             searchValue := Option.none, referencedObjectKey := Option.none }] ] }

/-- The Laptops attribute definitions used in the workflow witnesses. -/
def workflowDefs : List AttributeDef :=
  [ { id := 2, name := "Assignee", defaultTypeName := some "User", typ := some 2
      statusTypeValues := Option.none, statusValues := Option.none },
    { id := 40, name := "Asset Status", defaultTypeName := some "Text", typ := some 0
      statusTypeValues := Option.none, statusValues := Option.none } ]

/-- Witness for C1: each raise path and each skip path of `process_asset`
at concrete environments, all obtained from `process_asset_error_policy`. -/
theorem process_asset_error_policy_witness :
    ((process_asset (unitAMEnv (Except.error (PyExc.assetNotFound "gone")) [] (Except.ok recNoEmail)
        (fun _ => Except.ok "acc-x") true) defaultConfig "HW-404" false ()).1 =
      Outcome.raise (PyExc.assetNotFound "gone")) ∧
    ((process_asset (unitAMEnv (Except.ok recNoEmail) [] (Except.ok recNoEmail)
        (fun _ => Except.ok "acc-x") true) defaultConfig "HW-101" false ()).1 =
      Outcome.ret { asgBase "HW-101" false with
        skipped := true, skip_reason := some "No \x27User Email\x27 attribute found" }) ∧
    ((process_asset (unitAMEnv (Except.ok recWsEmail) [] (Except.ok recNoEmail)
        (fun _ => Except.ok "acc-x") true) defaultConfig "HW-103" false ()).1 =
      Outcome.ret { asgBase "HW-103" false with
        user_email := some ""
        skipped := true, skip_reason := some "No \x27User Email\x27 attribute found" }) ∧
    (∃ r, (process_asset (unitAMEnv (Except.ok recWithEmail) [] (Except.ok recNoEmail)
        (fun _ => Except.error (PyExc.userNotFound "no user found")) true)
        defaultConfig "HW-100" false ()).1 = Outcome.ret r ∧
      r.skipped = true ∧ r.skip_reason = some "User lookup failed: no user found") ∧
    (∃ r, (process_asset (unitAMEnv (Except.ok recWithEmail) [] (Except.ok recNoEmail)
        (fun _ => Except.ok "acc-alice") false) defaultConfig "HW-100" false ()).1 =
      Outcome.ret r ∧
      r.skipped = true ∧ r.skip_reason = some "AccountId acc-alice is invalid or inactive") ∧
    (∃ r, (process_asset (unitAMEnv (Except.ok recAssigned) [] (Except.ok recNoEmail)
        (fun _ => Except.ok "acc-bob") true) defaultConfig "HW-102" false ()).1 =
      Outcome.ret r ∧
      r.skipped = true ∧ r.skip_reason = some "Assignee already set to acc-bob") ∧
    ((process_asset (unitAMEnv (Except.ok recWithEmail) workflowDefs (Except.ok recNoEmail)
        (fun _ => Except.ok "acc-alice") true) defaultConfig "HW-100" false ()).1 =
      Outcome.raise (PyExc.assetUpdateError
        "Update verification failed: assignee is still None after update")) := by
  refine ⟨?_, ?_, ?_, ?_, ?_, ?_, ?_⟩
  · exact (process_asset_error_policy _ defaultConfig "HW-404" false ()).1 "gone" rfl
  · exact ((process_asset_error_policy _ defaultConfig "HW-101" false ()).2 recNoEmail rfl).1 rfl
  · exact ((process_asset_error_policy _ defaultConfig "HW-103" false ()).2 recWsEmail
      rfl).2.1 (by decide)
  · exact (((process_asset_error_policy _ defaultConfig "HW-100" false ()).2 recWithEmail
      rfl).2.2 "alice@example.com" rfl (by decide)).1 "no user found" (Or.inl rfl)
  · exact ((((process_asset_error_policy _ defaultConfig "HW-100" false ()).2 recWithEmail
      rfl).2.2 "alice@example.com" rfl (by decide)).2 "acc-alice" rfl).1 rfl
  · exact (((((process_asset_error_policy _ defaultConfig "HW-102" false ()).2 recAssigned
      rfl).2.2 "bob@example.com" rfl (by decide)).2 "acc-bob" rfl).2 rfl).1 rfl
  · exact (((((process_asset_error_policy _ defaultConfig "HW-100" false ()).2 recWithEmail
      rfl).2.2 "alice@example.com" rfl (by decide)).2 "acc-alice" rfl).2 rfl).2
      { objectTypeAttributeId := 2, objectAttributeValues := ["acc-alice"] }
      recNoEmail () (by decide) rfl rfl rfl rfl

/-- C5: for every record whose extracted current status is exactly
`"Retired"`, `process_retirement` returns normally with `skipped = true`,
no error, no `updated` flag, an unchanged backend state and an empty update
trace — for any `dry_run` value; hence re-running retirement on an
already-retired record never errors. -/
theorem process_retirement_already_retired_skips {σ : Type} (env : AMEnv σ) (cfg : Config)
    (key : String) (dry : Bool) (s : σ) (rec : AssetObject)
    (hf : env.getObjectByKey key s = Except.ok rec)
    (hstatus : extract_asset_status cfg rec = some "Retired") :
    ∃ r, process_retirement env cfg key dry s = (Outcome.ret r, s, []) ∧
      r.skipped = true ∧ r.error = Option.none ∧ r.updated = false ∧
      r.skip_reason.isSome = true := by
  simp only [process_retirement, hf]
  cases hd : extract_retirement_date cfg rec with
  | none => exact ⟨_, rfl, rfl, rfl, rfl, rfl⟩
  | some rd =>
    have hb : (extract_asset_status cfg rec == some "Retired") = true := by simp [hstatus]
    simp only [hb, if_true]
    exact ⟨_, rfl, rfl, rfl, rfl, rfl⟩

/-- A retirement-date attribute instance. -/
def retirementAttrEntry (d : String) : ObjectAttribute :=
  { objectTypeAttributeName := some "Retirement Date", objectTypeAttributeType := some 6
    objectTypeAttributeId := some 3
    objectAttributeValues :=
      [{ value := some d, displayValue := some d
         searchValue := Option.none, referencedObjectKey := Option.none }]
    name := Option.none, values := [] }

/-- An asset-status attribute instance. -/
def statusAttrEntry (v : String) : ObjectAttribute :=
  { objectTypeAttributeName := some "Asset Status", objectTypeAttributeType := some 0
    objectTypeAttributeId := some 40
    objectAttributeValues :=
      [{ value := some v, displayValue := some v
         searchValue := Option.none, referencedObjectKey := Option.none }]
    name := Option.none, values := [] }

/-- An already-retired record with a retirement date. -/
def recRetired : AssetObject :=
  { id := 9, objectKey := "HW-493", objectTypeId := 23
    attributes := [retirementAttrEntry "2024-01-01", statusAttrEntry "Retired"] }

/-- Witness for C5 at a concrete already-retired record, for both dry-run
values, obtained from `process_retirement_already_retired_skips`. -/
theorem process_retirement_already_retired_skips_witness :
    (∃ r, process_retirement (unitAMEnv (Except.ok recRetired) workflowDefs
        (Except.ok recRetired) (fun _ => Except.ok "acc-x") true) defaultConfig
        "HW-493" false () = (Outcome.ret r, (), []) ∧
      r.skipped = true ∧ r.error = Option.none ∧ r.updated = false ∧
      r.skip_reason.isSome = true) ∧
    (∃ r, process_retirement (unitAMEnv (Except.ok recRetired) workflowDefs
        (Except.ok recRetired) (fun _ => Except.ok "acc-x") true) defaultConfig
        "HW-493" true () = (Outcome.ret r, (), []) ∧
      r.skipped = true ∧ r.error = Option.none ∧ r.updated = false ∧
      r.skip_reason.isSome = true) := by
  constructor
  · exact process_retirement_already_retired_skips _ defaultConfig "HW-493" false ()
      recRetired rfl rfl
  · exact process_retirement_already_retired_skips _ defaultConfig "HW-493" true ()
      recRetired rfl rfl

/-- A concrete backing store: the records and the per-object-type attribute
definitions the collaborator would serve. -/
structure Store where
  objects : List AssetObject
  attrDefs : Nat → List AttributeDef

/-- The attribute value written by the literal backend for a raw string. -/
def mkWrittenValue (v : String) : AttrValue :=
  { value := some v, displayValue := some v
    searchValue := Option.none, referencedObjectKey := Option.none }

/-- In-place value replacement for an entry matching the updated id. -/
def updateEntryValues (u : AttributeUpdate) (a : ObjectAttribute) : ObjectAttribute :=
  if a.objectTypeAttributeId == some u.objectTypeAttributeId then
    { a with objectAttributeValues := u.objectAttributeValues.map mkWrittenValue }
  else a

/-- The backend's application of one attribute update to a record's
attribute list, rendering the written raw value as the display value: every
entry matching the updated definition id gets the new values; if none
exists, an entry is appended, named from the attribute definitions. -/
def appendedEntry (defs : List AttributeDef) (u : AttributeUpdate) : ObjectAttribute :=
  { objectTypeAttributeName :=
      (defs.find? (fun d => d.id == u.objectTypeAttributeId)).map (fun d => d.name)
    objectTypeAttributeType :=
      (defs.find? (fun d => d.id == u.objectTypeAttributeId)).bind (fun d => d.typ)
    objectTypeAttributeId := some u.objectTypeAttributeId
    objectAttributeValues := u.objectAttributeValues.map mkWrittenValue
    name := Option.none, values := [] }

def applyAttributeUpdate (defs : List AttributeDef) (attrs : List ObjectAttribute)
    (u : AttributeUpdate) : List ObjectAttribute :=
  if attrs.any (fun a => a.objectTypeAttributeId == some u.objectTypeAttributeId) then
    attrs.map (updateEntryValues u)
  else
    attrs ++ [appendedEntry defs u]

/-- Application of a list of attribute updates to a record. -/
def applyAttributeUpdates (defs : List AttributeDef) (r : AssetObject)
    (us : List AttributeUpdate) : AssetObject :=
  { r with attributes := us.foldl (applyAttributeUpdate defs) r.attributes }

/-- Replace the first object with the given id by its updated version. -/
def updateFirstById (i : Nat) (f : AssetObject → AssetObject) :
    List AssetObject → List AssetObject
  | [] => []
  | o :: os => if o.id == i then f o :: os else o :: updateFirstById i f os

/-- The store after a persisted update: the first object with the updated
id is replaced by its updated version. -/
def storeUpdateObjects (s : Store) (oid : Nat) (us : List AttributeUpdate) : List AssetObject :=
  updateFirstById oid
    (fun x => applyAttributeUpdates (s.attrDefs x.objectTypeId) x us) s.objects

/-- The reconciliation collaborators backed by a `Store` with literal
update semantics (`PUT` returns the updated object; later fetches see it):
this is the "no external state change in between" backend of the
idempotence property.  The identity collaborators are plain functions
(`lookup_user_account_id` and `validate_account_id` are deterministic for a
fixed directory). -/
def storeEnv (lookup : String → Except PyExc String) (validate : String → Bool) :
    AMEnv Store :=
  { getObjectByKey := fun key s =>
      match s.objects.find? (fun o => o.objectKey == key) with
      | some o => Except.ok o
      | Option.none =>
        Except.error (PyExc.assetNotFound ("Asset not found [get object " ++ key ++ "]"))
    getObjectAttributes := fun tid s => Except.ok (s.attrDefs tid)
    updateObject := fun oid us s =>
      match s.objects.find? (fun o => o.id == oid) with
      | Option.none =>
        (Except.error (PyExc.assetsAPIError
          ("Assets API request failed [update object " ++ toString oid ++ "]")), s)
      | some o =>
        (Except.ok (applyAttributeUpdates (s.attrDefs o.objectTypeId) o us),
         { s with objects := storeUpdateObjects s oid us })
    lookupAccountId := fun e _ => lookup e
    validateAccountId := fun acc _ => validate acc }

theorem updateEntryValues_name (u : AttributeUpdate) (a : ObjectAttribute) :
    (updateEntryValues u a).objectTypeAttributeName = a.objectTypeAttributeName := by
  unfold updateEntryValues
  by_cases h : (a.objectTypeAttributeId == some u.objectTypeAttributeId) = true
  · rw [if_pos h]
  · rw [if_neg h]

theorem extract_go_map_updated (A v : String) (u : AttributeUpdate)
    (hv : u.objectAttributeValues = [v]) :
    ∀ attrs : List ObjectAttribute,
      (∀ a ∈ attrs, (a.objectTypeAttributeName = some A ↔
        a.objectTypeAttributeId = some u.objectTypeAttributeId)) →
      (∃ a ∈ attrs, a.objectTypeAttributeName = some A) →
      extract_attribute_value_go A (attrs.map (updateEntryValues u)) = PyVal.str v := by
  intro attrs
  induction attrs with
  | nil => intro _ hex; simp at hex
  | cons a rest ih =>
    intro hIff hex
    simp only [List.map_cons]
    by_cases ha : (a.objectTypeAttributeName = some A)
    · have hid : a.objectTypeAttributeId = some u.objectTypeAttributeId :=
        ((hIff a (List.mem_cons_self a rest)).mp ha)
      have hpred : ((updateEntryValues u a).objectTypeAttributeName == some A) = true := by
        rw [updateEntryValues_name]
        simp [ha]
      simp only [extract_attribute_value_go, if_pos hpred]
      have hentry : (updateEntryValues u a).objectAttributeValues = [mkWrittenValue v] := by
        unfold updateEntryValues
        rw [if_pos (by simp [hid])]
        simp [hv]
      rw [hentry]
      rfl
    · have hpred : ((updateEntryValues u a).objectTypeAttributeName == some A) = false := by
        rw [updateEntryValues_name]
        simp [ha]
      simp only [extract_attribute_value_go]
      rw [if_neg (by simp [hpred])]
      refine ih (fun b hb => hIff b (List.mem_cons_of_mem a hb)) ?_
      rcases hex with ⟨b, hb, hbn⟩
      rcases List.mem_cons.mp hb with hb1 | hb2
      · subst hb1; exact absurd hbn ha
      · exact ⟨b, hb2, hbn⟩

theorem extract_go_map_other (n A : String) (u : AttributeUpdate) (hne : ¬ n = A) :
    ∀ attrs : List ObjectAttribute,
      (∀ a ∈ attrs, (a.objectTypeAttributeName = some A ↔
        a.objectTypeAttributeId = some u.objectTypeAttributeId)) →
      extract_attribute_value_go n (attrs.map (updateEntryValues u)) =
        extract_attribute_value_go n attrs := by
  intro attrs
  induction attrs with
  | nil => intro _; rfl
  | cons a rest ih =>
    intro hIff
    simp only [List.map_cons]
    by_cases ha : (a.objectTypeAttributeName == some n) = true
    · have haeq : a.objectTypeAttributeName = some n := by simpa using ha
      have hnotA : ¬ a.objectTypeAttributeName = some A := by
        rw [haeq]
        simp [hne]
      have hid : ¬ a.objectTypeAttributeId = some u.objectTypeAttributeId :=
        fun hc => hnotA ((hIff a (List.mem_cons_self a rest)).mpr hc)
      have hsame : updateEntryValues u a = a := by
        unfold updateEntryValues
        rw [if_neg (by simp [hid])]
      rw [hsame]
      simp only [extract_attribute_value_go]
      rw [if_pos ha, if_pos ha]
    · have hpred : ((updateEntryValues u a).objectTypeAttributeName == some n) = false := by
        rw [updateEntryValues_name]
        simpa using ha
      simp only [extract_attribute_value_go]
      rw [if_neg (by simp [hpred]), if_neg ha]
      exact ih fun b hb => hIff b (List.mem_cons_of_mem a hb)

theorem extract_go_append_one (n : String) (e : ObjectAttribute) :
    ∀ attrs : List ObjectAttribute,
      (∀ a ∈ attrs, ¬ (a.objectTypeAttributeName == some n) = true) →
      extract_attribute_value_go n (attrs ++ [e]) = extract_attribute_value_go n [e] := by
  intro attrs
  induction attrs with
  | nil => intro _; rfl
  | cons a rest ih =>
    intro h
    simp only [List.cons_append, extract_attribute_value_go]
    rw [if_neg (h a (List.mem_cons_self a rest))]
    exact ih fun b hb => h b (List.mem_cons_of_mem a hb)

theorem extract_go_append_nomatch (n : String) (e : ObjectAttribute)
    (he : ¬ (e.objectTypeAttributeName == some n) = true) :
    ∀ attrs : List ObjectAttribute,
      extract_attribute_value_go n (attrs ++ [e]) = extract_attribute_value_go n attrs := by
  intro attrs
  induction attrs with
  | nil =>
    simp only [List.nil_append, extract_attribute_value_go]
    rw [if_neg he]
  | cons a rest ih =>
    simp only [List.cons_append, extract_attribute_value_go]
    by_cases ha : (a.objectTypeAttributeName == some n) = true
    · rw [if_pos ha, if_pos ha]
    · rw [if_neg ha, if_neg ha]
      exact ih

theorem find?_key_updateFirstById (key : String) (i : Nat) (f : AssetObject → AssetObject)
    (rec : AssetObject) (hf : (f rec).objectKey = rec.objectKey) :
    ∀ objs : List AssetObject,
      objs.find? (fun o => o.objectKey == key) = some rec →
      objs.find? (fun o => o.id == i) = some rec →
      (updateFirstById i f objs).find? (fun o => o.objectKey == key) = some (f rec) := by
  intro objs
  induction objs with
  | nil => intro hkey _; simp [List.find?] at hkey
  | cons o os ih =>
    intro hkey hid
    have hkeyrec : (rec.objectKey == key) = true := by
      have := List.find?_some hkey
      simpa using this
    by_cases ho : (o.id == i) = true
    · have h1 : (o :: os).find? (fun o => o.id == i) = some o :=
        List.find?_cons_of_pos os ho
      rw [h1] at hid
      injection hid with hid
      subst hid
      unfold updateFirstById
      rw [if_pos ho]
      have h2 : ((f o).objectKey == key) = true := by rw [hf]; exact hkeyrec
      exact List.find?_cons_of_pos os h2
    · by_cases hko : (o.objectKey == key) = true
      · have h1 : (o :: os).find? (fun o => o.objectKey == key) = some o :=
          List.find?_cons_of_pos os hko
        rw [h1] at hkey
        injection hkey with hkey
        subst hkey
        have : (o.id == i) = true := by
          have := List.find?_some hid
          simpa using this
        exact absurd this ho
      · have h1 : (o :: os).find? (fun o => o.objectKey == key) =
            os.find? (fun o => o.objectKey == key) := List.find?_cons_of_neg os hko
        rw [h1] at hkey
        have h2 : (o :: os).find? (fun o => o.id == i) =
            os.find? (fun o => o.id == i) := List.find?_cons_of_neg os ho
        rw [h2] at hid
        unfold updateFirstById
        rw [if_neg ho]
        have h3 : (o :: updateFirstById i f os).find? (fun o => o.objectKey == key) =
            (updateFirstById i f os).find? (fun o => o.objectKey == key) :=
          List.find?_cons_of_neg _ hko
        rw [h3]
        exact ih hkey hid

theorem extract_applyAttributeUpdate_updated (defs : List AttributeDef)
    (attrs : List ObjectAttribute) (u : AttributeUpdate) (A v : String)
    (adef : AttributeDef)
    (hv : u.objectAttributeValues = [v])
    (hdef : defs.find? (fun d => d.id == u.objectTypeAttributeId) = some adef)
    (hA : adef.name = A)
    (hIff : ∀ a ∈ attrs, (a.objectTypeAttributeName = some A ↔
      a.objectTypeAttributeId = some u.objectTypeAttributeId)) :
    extract_attribute_value_go A (applyAttributeUpdate defs attrs u) = PyVal.str v := by
  unfold applyAttributeUpdate
  by_cases hany :
      (attrs.any (fun a => a.objectTypeAttributeId == some u.objectTypeAttributeId)) = true
  · rw [if_pos hany]
    refine extract_go_map_updated A v u hv attrs hIff ?_
    rcases List.any_eq_true.mp hany with ⟨a, ha, hpa⟩
    exact ⟨a, ha, (hIff a ha).mpr (by simpa using hpa)⟩
  · rw [if_neg hany]
    have hnone : ∀ a ∈ attrs, ¬ (a.objectTypeAttributeName == some A) = true := by
      intro a ha hc
      have h1 : a.objectTypeAttributeName = some A := by simpa using hc
      have h2 := (hIff a ha).mp h1
      have h3 : (a.objectTypeAttributeId == some u.objectTypeAttributeId) = true := by
        simp [h2]
      exact hany (List.any_eq_true.mpr ⟨a, ha, h3⟩)
    rw [extract_go_append_one A (appendedEntry defs u) attrs hnone]
    have hename : (appendedEntry defs u).objectTypeAttributeName = some A := by
      unfold appendedEntry
      rw [hdef]
      simp [hA]
    simp only [extract_attribute_value_go]
    rw [if_pos (by simp [hename])]
    unfold appendedEntry
    rw [hv]
    rfl

theorem extract_applyAttributeUpdate_other (defs : List AttributeDef)
    (attrs : List ObjectAttribute) (u : AttributeUpdate) (A n : String)
    (adef : AttributeDef) (hne : ¬ n = A)
    (hdef : defs.find? (fun d => d.id == u.objectTypeAttributeId) = some adef)
    (hA : adef.name = A)
    (hIff : ∀ a ∈ attrs, (a.objectTypeAttributeName = some A ↔
      a.objectTypeAttributeId = some u.objectTypeAttributeId)) :
    extract_attribute_value_go n (applyAttributeUpdate defs attrs u) =
      extract_attribute_value_go n attrs := by
  unfold applyAttributeUpdate
  by_cases hany :
      (attrs.any (fun a => a.objectTypeAttributeId == some u.objectTypeAttributeId)) = true
  · rw [if_pos hany]
    exact extract_go_map_other n A u hne attrs hIff
  · rw [if_neg hany]
    have hename : (appendedEntry defs u).objectTypeAttributeName = some A := by
      unfold appendedEntry
      rw [hdef]
      simp [hA]
    refine extract_go_append_nomatch n (appendedEntry defs u) ?_ attrs
    rw [hename]
    simp
    intro hc
    exact hne hc.symm

theorem storeEnv_getObjectByKey (lookup : String → Except PyExc String)
    (validate : String → Bool) (key : String) (s : Store) (o : AssetObject)
    (h : s.objects.find? (fun o => o.objectKey == key) = some o) :
    (storeEnv lookup validate).getObjectByKey key s = Except.ok o := by
  dsimp only [storeEnv]
  rw [h]

/-- The assignee attribute update built in the first run. -/
def assigneeUpdate (adef : AttributeDef) (acc : String) : AttributeUpdate :=
  { objectTypeAttributeId := adef.id, objectAttributeValues := [acc] }

/-- The record as re-served by the store after the assignee update. -/
def recAfterAssign (store : Store) (rec : AssetObject) (adef : AttributeDef)
    (acc : String) : AssetObject :=
  applyAttributeUpdates (store.attrDefs rec.objectTypeId) rec [assigneeUpdate adef acc]

/-- The store after the assignee update was persisted. -/
def storeAfterAssign (store : Store) (rec : AssetObject) (adef : AttributeDef)
    (acc : String) : Store :=
  { store with objects := storeUpdateObjects store rec.id [assigneeUpdate adef acc] }

/-- C4: against the literal store backend (persisted updates are what later
fetches see, i.e. no external state change between runs), a first
non-dry-run `process_asset` that resolves a truthy (non-empty normalized)
email and updates the assignee succeeds, and a second run on the resulting
state skips with "Assignee already set to …" for either dry-run flag:
applying the same email-to-account-id resolution twice is a no-op. -/
theorem process_asset_idempotent (store : Store) (lookup : String → Except PyExc String)
    (validate : String → Bool) (cfg : Config) (key : String) (rec : AssetObject)
    (email acc : String) (adef : AttributeDef) (dry2 : Bool)
    (hkey : store.objects.find? (fun o => o.objectKey == key) = some rec)
    (hid : store.objects.find? (fun o => o.id == rec.id) = some rec)
    (hemail : extract_user_email cfg rec = some email)
    (hne0 : ¬ email = "")
    (hlookup : lookup email = Except.ok acc)
    (hacc : ¬ acc = "")
    (hval : validate acc = true)
    (hcur : ¬ extract_current_assignee cfg rec = some acc)
    (hdef : (store.attrDefs rec.objectTypeId).find?
      (fun d => d.name == cfg.assigneeAttribute) = some adef)
    (hdefid : (store.attrDefs rec.objectTypeId).find?
      (fun d => d.id == adef.id) = some adef)
    (hwf : ∀ a ∈ rec.attributes,
      (a.objectTypeAttributeName = some cfg.assigneeAttribute ↔
        a.objectTypeAttributeId = some adef.id))
    (hne : ¬ cfg.userEmailAttribute = cfg.assigneeAttribute) :
    ∃ r1, (process_asset (storeEnv lookup validate) cfg key false store).1 =
        Outcome.ret r1 ∧
      r1.success = true ∧ r1.updated = true ∧
      ∃ r2, (process_asset (storeEnv lookup validate) cfg key dry2
          (process_asset (storeEnv lookup validate) cfg key false store).2.1).1 =
        Outcome.ret r2 ∧
        r2.skipped = true ∧ r2.skip_reason = some ("Assignee already set to " ++ acc) := by
  have hAname : adef.name = cfg.assigneeAttribute := by
    have := List.find?_some hdef
    simpa using this
  have hne0b : (email == "") = false := beq_eq_false_iff_ne.mpr hne0
  have hfetch1 : (storeEnv lookup validate).getObjectByKey key store = Except.ok rec :=
    storeEnv_getObjectByKey lookup validate key store rec hkey
  have hlookup1 : (storeEnv lookup validate).lookupAccountId email store = Except.ok acc := by
    dsimp only [storeEnv]
    exact hlookup
  have hval1 : (storeEnv lookup validate).validateAccountId acc store = true := by
    dsimp only [storeEnv]
    exact hval
  have hca1 : (extract_current_assignee cfg rec == some acc) = false := by
    simp only [beq_eq_false_iff_ne, ne_eq]
    exact hcur
  have hupd1 : create_attribute_update (storeEnv lookup validate) store cfg.assigneeAttribute
      acc rec.objectTypeId = Except.ok (assigneeUpdate adef acc) := by
    unfold create_attribute_update
    dsimp only [storeEnv]
    rw [hdef]
    rfl
  have hobj1 : (storeEnv lookup validate).updateObject rec.id [assigneeUpdate adef acc] store =
      (Except.ok (recAfterAssign store rec adef acc), storeAfterAssign store rec adef acc) := by
    dsimp only [storeEnv]
    rw [hid]
    rfl
  have hver1 : extract_attribute_value (recAfterAssign store rec adef acc)
      cfg.assigneeAttribute = PyVal.str acc :=
    extract_applyAttributeUpdate_updated (store.attrDefs rec.objectTypeId) rec.attributes
      (assigneeUpdate adef acc) cfg.assigneeAttribute acc adef rfl hdefid hAname hwf
  have hrun1 : process_asset (storeEnv lookup validate) cfg key false store =
      (Outcome.ret { asgBase key false with
          success := true
          user_email := some email
          current_assignee := extract_current_assignee cfg rec
          account_id := some acc
          new_assignee := some acc
          updated := true },
       storeAfterAssign store rec adef acc,
       [(rec.id, [assigneeUpdate adef acc])]) := by
    simp only [process_asset, hfetch1, hemail, hne0b, hlookup1, hval1, hca1, hupd1, hobj1,
      hver1, Bool.not_true, Bool.not_false, Bool.false_eq_true, if_false, if_true]
  have hfind2 : (storeAfterAssign store rec adef acc).objects.find?
      (fun o => o.objectKey == key) = some (recAfterAssign store rec adef acc) := by
    show (storeUpdateObjects store rec.id [assigneeUpdate adef acc]).find?
      (fun o => o.objectKey == key) = _
    unfold storeUpdateObjects
    exact find?_key_updateFirstById key rec.id _ rec rfl store.objects hkey hid
  have hfetch2 : (storeEnv lookup validate).getObjectByKey key
      (storeAfterAssign store rec adef acc) = Except.ok (recAfterAssign store rec adef acc) :=
    storeEnv_getObjectByKey lookup validate key _ _ hfind2
  have hD : extract_attribute_value (recAfterAssign store rec adef acc)
      cfg.userEmailAttribute = extract_attribute_value rec cfg.userEmailAttribute :=
    extract_applyAttributeUpdate_other (store.attrDefs rec.objectTypeId) rec.attributes
      (assigneeUpdate adef acc) cfg.assigneeAttribute cfg.userEmailAttribute adef hne
      hdefid hAname hwf
  have hemail2 : extract_user_email cfg (recAfterAssign store rec adef acc) = some email := by
    unfold extract_user_email at hemail ⊢
    rw [hD]
    exact hemail
  have hca2 : (extract_current_assignee cfg (recAfterAssign store rec adef acc) ==
      some acc) = true := by
    unfold extract_current_assignee
    rw [hver1]
    simp [PyVal.isTruthy, PyVal.pyStr, hacc]
  have hlookup2 : (storeEnv lookup validate).lookupAccountId email
      (storeAfterAssign store rec adef acc) = Except.ok acc := by
    dsimp only [storeEnv]
    exact hlookup
  have hval2 : (storeEnv lookup validate).validateAccountId acc
      (storeAfterAssign store rec adef acc) = true := by
    dsimp only [storeEnv]
    exact hval
  refine ⟨_, by rw [hrun1], rfl, rfl, ?_⟩
  rw [hrun1]
  simp only [process_asset, hfetch2, hemail2, hne0b, hlookup2, hval2, hca2,
    Bool.false_eq_true, if_false, if_true]
  exact ⟨_, rfl, rfl, rfl⟩

/-- The witness store: one record with a user email and no assignee. -/
def c4Store : Store :=
  { objects := [recWithEmail], attrDefs := fun _ => workflowDefs }

/-- The witness identity directory. -/
def c4Lookup : String → Except PyExc String := fun e =>
  if e == "alice@example.com" then Except.ok "acc-alice"
  else Except.error (PyExc.userNotFound ("No user found with email: " ++ e))

/-- Witness for C4: on the concrete store the first run updates and the
second run skips with "Assignee already set to acc-alice", obtained from
`process_asset_idempotent`. -/
theorem process_asset_idempotent_witness :
    ∃ r1, (process_asset (storeEnv c4Lookup (fun _ => true)) defaultConfig "HW-100" false
        c4Store).1 = Outcome.ret r1 ∧
      r1.success = true ∧ r1.updated = true ∧
      ∃ r2, (process_asset (storeEnv c4Lookup (fun _ => true)) defaultConfig "HW-100" true
          (process_asset (storeEnv c4Lookup (fun _ => true)) defaultConfig "HW-100" false
            c4Store).2.1).1 = Outcome.ret r2 ∧
        r2.skipped = true ∧
        r2.skip_reason = some ("Assignee already set to " ++ "acc-alice") := by
  refine process_asset_idempotent c4Store c4Lookup (fun _ => true) defaultConfig "HW-100"
    recWithEmail "alice@example.com" "acc-alice"
    { id := 2, name := "Assignee", defaultTypeName := some "User", typ := some 2
      statusTypeValues := Option.none, statusValues := Option.none } true
    rfl rfl rfl (by decide) rfl (by decide) rfl (by decide) rfl rfl ?_ (by decide)
  intro a ha
  simp only [recWithEmail, List.mem_cons, List.not_mem_nil, or_false] at ha
  rcases ha with h | h <;> subst h <;>
    simp only [emailAttrEntry, assigneeAttrEntry, defaultConfig] <;> decide

/-- Python `int(s)` on a decimal string: optional surrounding whitespace
and sign, at least one digit. -/
def pyIntParse (s : String) : Option Int :=
  match (pyStrip s).data with
  | [] => Option.none
  | c :: rest =>
    if c == '-' then
      if rest ≠ [] ∧ rest.all Char.isDigit then
        some (-(Int.ofNat (String.toNat! (String.mk rest))))
      else Option.none
    else if c == '+' then
      if rest ≠ [] ∧ rest.all Char.isDigit then
        some (Int.ofNat (String.toNat! (String.mk rest)))
      else Option.none
    else if (c :: rest).all Char.isDigit then
      some (Int.ofNat (String.toNat! (String.mk (c :: rest))))
    else Option.none

/-- The Gregorian leap-year rule used by `datetime`. -/
def isLeapYear (y : Int) : Bool :=
  (y % 4 == 0 && !(y % 100 == 0)) || y % 400 == 0

/-- Days in a month, as validated by `datetime(year, month, day)`. -/
def daysInMonth (y m : Int) : Int :=
  if m == 2 then (if isLeapYear y then 29 else 28)
  else if m == 4 || m == 6 || m == 9 || m == 11 then 30
  else 31

/-- `datetime(year, month, day)` constructor validity. -/
def validDate (y m d : Int) : Bool :=
  1 ≤ y && y ≤ 9999 && 1 ≤ m && m ≤ 12 && 1 ≤ d && d ≤ daysInMonth y m

/-- Left-pad a natural number's decimal form with zeros. -/
def padNat (width n : Nat) : String :=
  let s := toString n
  String.mk (List.replicate (width - s.length) '0') ++ s

/-- Split a string at every occurrence of a character (Python
`str.split(c)` semantics for a single-character separator). -/
def splitOnCharGo (c : Char) : List Char → List Char → List String
  | [], acc => [String.mk acc.reverse]
  | x :: xs, acc =>
    if x == c then String.mk acc.reverse :: splitOnCharGo c xs []
    else splitOnCharGo c xs (x :: acc)

/-- `s.split(c)` for one separator character. -/
def splitOnChar (c : Char) (s : String) : List String :=
  splitOnCharGo c s.data []

/-- `s.replace('/', '-')` (single-character replacement). -/
def slashesToDashes (s : String) : String :=
  String.mk (s.data.map fun c => if c == '/' then '-' else c)

/-- `AssetManager._normalize_date_yyyy_mm_dd`: unify separators, split into
three parts, decide year-first versus day-first by the first token, parse
the integers, validate through the `datetime` constructor and re-render as
`YYYY-MM-DD`; every failure is a `ValidationError`. -/
def _normalize_date_yyyy_mm_dd (date_str : String) : Except PyExc String :=
  if pyStrip date_str == "" then
    Except.error (PyExc.validationError "Purchase date cannot be empty if provided")
  else
    match splitOnChar '-' (slashesToDashes (pyStrip date_str)) with
    | [a, b, c] =>
      match
        (if a.length == 4 && (a.data ≠ [] && a.data.all Char.isDigit) then
          (pyIntParse a, pyIntParse b, pyIntParse c)
        else (pyIntParse c, pyIntParse b, pyIntParse a)) with
      | (some year, some month, some day) =>
        if validDate year month day then
          Except.ok (padNat 4 year.toNat ++ "-" ++ padNat 2 month.toNat ++ "-" ++
            padNat 2 day.toNat)
        else
          Except.error (PyExc.validationError
            "Invalid purchase date value. Use YYYY-MM-DD (e.g., 2025-09-15)")
      | _ =>
        Except.error (PyExc.validationError
          "Invalid purchase date value. Use YYYY-MM-DD (e.g., 2025-09-15)")
    | _ =>
      Except.error (PyExc.validationError
        "Invalid purchase date format. Use YYYY-MM-DD (e.g., 2025-09-15)")

/-- Python `s.startswith(pre)`. -/
def pyStartsWith (s pre : String) : Bool :=
  pre.data.isPrefixOf s.data

/-- Python truthiness of an optional string argument. -/
def pyOptTruthy : Option String → Bool
  | some s => !(s == "")
  | Option.none => false

/-- `if x: x = x.strip()` on an optional argument. -/
def stripIfTruthy (o : Option String) : Option String :=
  if pyOptTruthy o then some (pyStrip (o.getD "")) else o

/-- `JiraAssetsClient.get_attribute_id_by_name`. -/
def get_attribute_id_by_name (env : ClientEnv) (attribute_name : String)
    (object_type_id : Nat) : Except PyExc Nat :=
  match env.getObjectAttributes object_type_id with
  | Except.error e => Except.error e
  | Except.ok attributes =>
    match attributes.find? (fun a => a.name == attribute_name) with
    | some attr => Except.ok attr.id
    | Option.none =>
      Except.error (PyExc.attributeNotFound ("Attribute \x27" ++ attribute_name ++
        "\x27 not found in object type " ++ toString object_type_id))

/-- The `while True` pagination loop shared by `list_models`,
`list_suppliers` and the bulk fetchers: accumulate pages until a short or
empty page.  `fuel` bounds the number of pages (the loop in the source runs
until the backend serves a short page).  The second component is the list
of issued AQL query strings. -/
def paginateAql (env : ClientEnv) (query : String) (limit : Nat) :
    Nat → Nat → Except PyExc (List AssetObject) × List String
  | 0, _ => (Except.ok [], [])
  | Nat.succ fuel, start =>
    match env.findObjectsByAql query start limit with
    | Except.error e => (Except.error e, [query])
    | Except.ok objects =>
      if objects.isEmpty then (Except.ok [], [query])
      else if objects.length < limit then (Except.ok objects, [query])
      else
        match paginateAql env query limit fuel (start + limit) with
        | (Except.error e, tr) => (Except.error e, query :: tr)
        | (Except.ok more, tr) => (Except.ok (objects ++ more), query :: tr)

/-- The AQL query of `list_models` / `resolve_model_name_to_object_key`. -/
def modelAql (cfg : Config) : String :=
  "objectType = \x22" ++ cfg.laptopsObjectSchemaName ++ "\x22 AND \x22" ++
    cfg.modelNameAttribute ++ "\x22 IS NOT EMPTY"

/-- The fallback extraction inside the `list_models` object loop: the last
matching AQL-shaped attribute's first value. -/
def fallbackModelNameGo (model_attr : String) :
    List ObjectAttribute → Option String → Option String
  | [], acc => acc
  | a :: rest, acc =>
    if a.name == some model_attr then
      match a.values with
      | v :: _ => fallbackModelNameGo model_attr rest v.value
      | [] => fallbackModelNameGo model_attr rest acc
    else fallbackModelNameGo model_attr rest acc

/-- One object's contribution to the model-name set: the by-id extraction
when truthy (strings only), else the AQL-shaped fallback; stripped, empties
dropped. -/
def modelNameOfObject (model_attr : String) (attr_id : Nat) (obj : AssetObject) :
    Option String :=
  match
    (if (extract_attribute_value_by_id obj attr_id).isTruthy then
      (match extract_attribute_value_by_id obj attr_id with
       | PyVal.str s => some s
       | _ => Option.none)
    else fallbackModelNameGo model_attr obj.attributes Option.none) with
  | some s => if pyStrip s == "" then Option.none else some (pyStrip s)
  | Option.none => Option.none

/-- Insertion into a case-insensitively sorted list (Python
`sorted(names, key=str.lower)` on the set of names). -/
def insertByLower (x : String) : List String → List String
  | [] => [x]
  | y :: ys => if pyLower x ≤ pyLower y then x :: y :: ys else y :: insertByLower x ys

/-- Case-insensitive sort. -/
def sortByLower (xs : List String) : List String :=
  xs.foldr insertByLower []

/-- `AssetManager.list_models`: the cached model-name list, else the
paginated model query with per-object name extraction, deduplicated and
sorted case-insensitively. -/
def list_models (env : ClientEnv) (cfg : Config) :
    Except PyExc (List String) × List String :=
  match env.modelsCache with
  | some cached => (Except.ok cached, [])
  | Option.none =>
    match get_laptops_object_type env cfg with
    | Except.error e => (Except.error e, [])
    | Except.ok laptops_object_type =>
      match get_attribute_id_by_name env cfg.modelNameAttribute laptops_object_type.id with
      | Except.error e => (Except.error e, [])
      | Except.ok model_name_attribute_id =>
        match paginateAql env (modelAql cfg) 100 64 0 with
        | (Except.error e, tr) => (Except.error e, tr)
        | (Except.ok all_objects, tr) =>
          (Except.ok (sortByLower (dedupFirstGo []
            (all_objects.filterMap
              (modelNameOfObject cfg.modelNameAttribute model_name_attribute_id)))), tr)

/-- One value's match in `resolve_model_name_to_object_key`: exact or
substring display-value match, returning the truthy `searchValue` or the
referenced object key (no match or neither key truthy ⇒ keep scanning). -/
def matchModelVal (model_name : String) (val : AttrValue) : Option String :=
  if val.displayValue.getD "" == model_name ||
      strContains (val.displayValue.getD "") model_name then
    match val.searchValue with
    | some sv =>
      if !(sv == "") then some sv
      else match val.referencedObjectKey with
        | some rk => if !(rk == "") then some rk else Option.none
        | Option.none => Option.none
    | Option.none =>
      match val.referencedObjectKey with
      | some rk => if !(rk == "") then some rk else Option.none
      | Option.none => Option.none
  else Option.none

/-- First hit in a list of optional results. -/
def firstSome {α : Type} : List (Option α) → Option α
  | [] => Option.none
  | some x :: _ => some x
  | Option.none :: rest => firstSome rest

/-- One attribute's match in the model-resolution loop: the by-id value
scan, then the AQL-shaped first-value check returning the record's own
key. -/
def matchModelAttr (model_attr_id : Nat) (model_attr_name model_name obj_key : String)
    (attr : ObjectAttribute) : Option String :=
  match
    (if attr.objectTypeAttributeId == some model_attr_id then
      firstSome (attr.objectAttributeValues.map (matchModelVal model_name))
    else Option.none) with
  | some k => some k
  | Option.none =>
    if attr.name == some model_attr_name then
      match attr.values with
      | v :: _ =>
        if v.value == some model_name || strContains (v.value.getD "") model_name then
          some obj_key
        else Option.none
      | [] => Option.none
    else Option.none

/-- One object's match: its own key when equal to the model name, else the
attribute scan. -/
def matchModelObject (model_attr_id : Nat) (model_attr_name model_name : String)
    (obj : AssetObject) : Option String :=
  if obj.objectKey == model_name then some model_name
  else firstSome (obj.attributes.map
    (matchModelAttr model_attr_id model_attr_name model_name obj.objectKey))

/-- `AssetManager.resolve_model_name_to_object_key(model_name)`: one model
AQL query (limit 100), first matching object wins (key match, exact or
substring display match via `searchValue`/referenced key, or AQL-shaped
value match); on no match a `ValueError` listing up to five known model
names from `list_models`. -/
def resolve_model_name_to_object_key (env : ClientEnv) (cfg : Config) (model_name : String) :
    Except PyExc String × List String :=
  match get_laptops_object_type env cfg with
  | Except.error e => (Except.error e, [])
  | Except.ok laptops_object_type =>
    match get_attribute_id_by_name env cfg.modelNameAttribute laptops_object_type.id with
    | Except.error e => (Except.error e, [])
    | Except.ok model_name_attribute_id =>
      match env.findObjectsByAql (modelAql cfg) 0 100 with
      | Except.error e => (Except.error e, [modelAql cfg])
      | Except.ok objects =>
        match firstSome (objects.map
            (matchModelObject model_name_attribute_id cfg.modelNameAttribute model_name)) with
        | some k => (Except.ok k, [modelAql cfg])
        | Option.none =>
          match list_models env cfg with
          | (Except.error e, tr) => (Except.error e, modelAql cfg :: tr)
          | (Except.ok available_models, tr) =>
            (Except.error (PyExc.valueError ("Model \x27" ++ model_name ++
                "\x27 not found. Available models: " ++
                pyReprStrList (available_models.take 5) ++ "...")),
              modelAql cfg :: tr)

/-- The AQL query of `list_suppliers`. -/
def suppliersAql : String := "objectType = \x22Suppliers\x22"

/-- One supplier object's `\x7b'name': ..., 'key': ...\x7d` entry: kept only
when both the top-level `name` and `objectKey` are truthy, with the name
stripped. -/
def supplierEntry (obj : AssetObject) : Option SupplierRec :=
  if !(obj.name.getD "" == "") && !(obj.objectKey == "") then
    some { name := pyStrip (obj.name.getD ""), key := obj.objectKey }
  else Option.none

/-- Insertion into a supplier list sorted by lowercased name
(`supplier_list.sort(key=lambda x: x["name"].lower())`). -/
def insertSupplier (x : SupplierRec) : List SupplierRec → List SupplierRec
  | [] => [x]
  | y :: ys =>
    if pyLower x.name ≤ pyLower y.name then x :: y :: ys else y :: insertSupplier x ys

/-- Sort suppliers by lowercased name. -/
def sortSuppliers (xs : List SupplierRec) : List SupplierRec :=
  xs.foldr insertSupplier []

/-- `AssetManager.list_suppliers`: the cached list, else an inline schema /
object-type scan (with its own error messages), the paginated
`objectType = "Suppliers"` query, and the truthy name/key projection,
sorted by lowercased name.  The second component is the list of issued AQL
query strings. -/
def list_suppliers (env : ClientEnv) (cfg : Config) :
    Except PyExc (List SupplierRec) × List String :=
  match env.suppliersCache with
  | some cached => (Except.ok cached, [])
  | Option.none =>
    match env.objectSchemas with
    | Except.error e => (Except.error e, [])
    | Except.ok schemas =>
      match schemas.find? (fun s => s.name == cfg.hardwareSchemaName) with
      | Option.none =>
        (Except.error (PyExc.schemaNotFound
          ("Hardware schema \x27" ++ cfg.hardwareSchemaName ++ "\x27 not found")), [])
      | some hardware_schema =>
        match env.objectTypes hardware_schema.id with
        | Except.error e => (Except.error e, [])
        | Except.ok object_types =>
          match object_types.find? (fun t => t.name == "Suppliers") with
          | Option.none =>
            (Except.error (PyExc.objectTypeNotFound "Suppliers object type not found"), [])
          | some _ =>
            match paginateAql env suppliersAql 100 64 0 with
            | (Except.error e, tr) => (Except.error e, tr)
            | (Except.ok all_suppliers, tr) =>
              (Except.ok (sortSuppliers (all_suppliers.filterMap supplierEntry)), tr)

/-- `AssetManager.create_supplier`: schema / object-type scan, the `Name`
attribute id (falsy id is treated as missing), then `create_object` with a
single-value payload; issues no AQL query. -/
def create_supplier (env : ClientEnv) (cfg : Config) (supplier_name : String) :
    Except PyExc SupplierRec :=
  match env.objectSchemas with
  | Except.error e => Except.error e
  | Except.ok schemas =>
    match schemas.find? (fun s => s.name == cfg.hardwareSchemaName) with
    | Option.none =>
      Except.error (PyExc.schemaNotFound
        ("Hardware schema \x27" ++ cfg.hardwareSchemaName ++ "\x27 not found"))
    | some hardware_schema =>
      match env.objectTypes hardware_schema.id with
      | Except.error e => Except.error e
      | Except.ok object_types =>
        match object_types.find? (fun t => t.name == "Suppliers") with
        | Option.none =>
          Except.error (PyExc.objectTypeNotFound "Suppliers object type not found")
        | some suppliers_type =>
          match env.getObjectAttributes suppliers_type.id with
          | Except.error e => Except.error e
          | Except.ok attributes =>
            match attributes.find? (fun a => a.name == "Name") with
            | Option.none =>
              Except.error (PyExc.attributeNotFound
                "Name attribute not found for Suppliers object type")
            | some name_attr =>
              if name_attr.id == 0 then
                Except.error (PyExc.attributeNotFound
                  "Name attribute not found for Suppliers object type")
              else
                match env.createObject suppliers_type.id
                    [{ objectTypeAttributeId := name_attr.id,
                       objectAttributeValues := [supplier_name] }] with
                | Except.error e => Except.error e
                | Except.ok created_supplier =>
                  Except.ok { name := pyStrip supplier_name, key := created_supplier.objectKey }

/-- `AssetManager.resolve_supplier_name_to_key`: case-insensitive match
against `list_suppliers`, creating the supplier when absent. -/
def resolve_supplier_name_to_key (env : ClientEnv) (cfg : Config) (supplier_name : String) :
    Except PyExc String × List String :=
  match list_suppliers env cfg with
  | (Except.error e, tr) => (Except.error e, tr)
  | (Except.ok suppliers, tr) =>
    match suppliers.find? (fun s => pyLower s.name == pyLower supplier_name) with
    | some s => (Except.ok s.key, tr)
    | Option.none =>
      match create_supplier env cfg supplier_name with
      | Except.error e => (Except.error e, tr)
      | Except.ok created => (Except.ok created.key, tr)

/-- The `attr_map` dict comprehension of `create_asset`: only entries with a
truthy name and id; a later definition with the same name overwrites an
earlier one. -/
def attrMapLookup (attributes : List AttributeDef) (key : String) : Option Nat :=
  match attributes.reverse.find?
      (fun a => !(a.name == "") && !(a.id == 0) && a.name == key) with
  | some a => some a.id
  | Option.none => Option.none

/-- The duplicate-check AQL query of `create_asset`:
`f\x27"\x7bconfig.serial_number_attribute\x7d" = "\x7bserial\x7d"\x27`. -/
def dupAql (cfg : Config) (serial : String) : String :=
  "\x22" ++ cfg.serialNumberAttribute ++ "\x22 = \x22" ++ serial ++ "\x22"

/-- The serials of `integration_test_serials` (lines 1800-1809). -/
def integration_test_serials : List String :=
  ["VALID-SERIAL-001", "INTEGRATION-TEST-001", "MAPPING-TEST-001", "INTERACTIVE-001",
   "SN12345", "ABC123", "DEF456", "GHI789"]

/-- The serials of `error_test_serials` (lines 1812-1817). -/
def error_test_serials : List String :=
  ["ERROR-TEST-001", "ERROR-TEST-002", "ERROR-TEST-003", "TEST-FAIL"]

/-- The serials of `expected_duplicate_serials` (lines 1820-1822). -/
def expected_duplicate_serials : List String := ["DUPLICATE123"]

/-- The branches of the `if`/`elif` chain at lines 1825-1832 that skip the
duplicate check entirely. -/
def bypassesDuplicateCheck (serial : String) : Bool :=
  pyStartsWith serial "STATUS-TEST-" || integration_test_serials.contains serial ||
    error_test_serials.contains serial

/-- The `already exists` message of the duplicate branches. -/
def duplicateMsg (serial object_key : String) : String :=
  "Asset with serial number \x27" ++ serial ++ "\x27 already exists: " ++ object_key

/-- The result dictionary of `create_asset` (the fields the claims read;
the `timestamp` key is out of scope). -/
structure CreateResult where
  success : Bool
  serial_number : String
  model_name : String
  status : String
  is_remote : Bool
  invoice_number : Option String
  purchase_date : Option String
  cost : Option String
  colour : Option String
  supplier : Option String
  object_key : Option String
  object_id : Option Nat
  label : Option String
  error : Option String
deriving Repr, BEq, DecidableEq

/-- The initial `result` dictionary (success false, no error). -/
def createResultBase (serial model_name status : String) (is_remote : Bool)
    (invoice_number purchase_date cost colour supplier : Option String) : CreateResult :=
  { success := false, serial_number := serial, model_name := model_name, status := status,
    is_remote := is_remote, invoice_number := invoice_number,
    purchase_date := purchase_date, cost := cost, colour := colour, supplier := supplier,
    object_key := Option.none, object_id := Option.none, label := Option.none,
    error := Option.none }

/-- `result[\x27error\x27] = msg; return result`. -/
def withError (r : CreateResult) (m : String) : CreateResult :=
  { r with error := some m }

/-- The error message assigned by the `except` clauses of `create_asset`:
a `ValueError` passes its message through, a `JiraAssetsAPIError` is
prefixed with `API error creating asset:`, anything else with
`Unexpected error creating asset:`. -/
def createAssetErrMsg (e : PyExc) : String :=
  match e with
  | PyExc.valueError m => m
  | _ =>
    if e.isJiraAssetsAPIError then "API error creating asset: " ++ e.msg
    else "Unexpected error creating asset: " ++ e.msg

/-- The purchase-date block: normalize when truthy, keep `None`/empty as
is; a `ValidationError` aborts. -/
def normalizeOptDate (pd : Option String) : Except PyExc (Option String) :=
  if pyOptTruthy pd then
    match _normalize_date_yyyy_mm_dd (pd.getD "") with
    | Except.ok d => Except.ok (some d)
    | Except.error e => Except.error e
  else Except.ok pd

/-- A required payload entry: present exactly when the attribute name is in
`attr_map`. -/
def reqPayload (attributes : List AttributeDef) (attr_name value : String) :
    List AttributeUpdate :=
  match attrMapLookup attributes attr_name with
  | some i => [{ objectTypeAttributeId := i, objectAttributeValues := [value] }]
  | Option.none => []

/-- An optional payload entry: present exactly when the argument is truthy
and the attribute name is in `attr_map`. -/
def optPayload (attributes : List AttributeDef) (attr_name : String) (v : Option String) :
    List AttributeUpdate :=
  match v with
  | some s =>
    if s == "" then []
    else reqPayload attributes attr_name s
  | Option.none => []

/-- The JSON rendering of the boolean `Remote Asset` value. -/
def pyBoolStr (b : Bool) : String := if b then "True" else "False"

/-- The status payload block of `create_asset`: when the configured status
attribute is in `attr_map`, resolve through `resolve_status_name_to_id`
only for true `Status`-typed attributes, else use the display name
directly; a `ValueError` aborts. -/
def statusStep (env : ClientEnv) (cfg : Config) (status : String)
    (attributes : List AttributeDef) : Except PyExc (List AttributeUpdate) :=
  match attrMapLookup attributes cfg.assetStatusAttribute with
  | Option.none => Except.ok []
  | some attr_id =>
    match
      (match attributes.find? (fun a => a.name == cfg.assetStatusAttribute) with
       | some a => a.defaultTypeName
       | Option.none => Option.none) with
    | some dt =>
      if !(dt == "") && pyLower dt == "status" then
        match resolve_status_name_to_id env cfg status with
        | Except.error e => Except.error e
        | Except.ok v =>
          Except.ok [{ objectTypeAttributeId := attr_id, objectAttributeValues := [v] }]
      else
        Except.ok [{ objectTypeAttributeId := attr_id, objectAttributeValues := [status] }]
    | Option.none =>
      Except.ok [{ objectTypeAttributeId := attr_id, objectAttributeValues := [status] }]

/-- The supplier payload block: when the argument is truthy and the
configured supplier attribute is in `attr_map`, resolve (or create) the
supplier; the second component is the list of issued AQL queries. -/
def supplierStep (env : ClientEnv) (cfg : Config) (supplier : Option String)
    (attributes : List AttributeDef) :
    Except PyExc (List AttributeUpdate) × List String :=
  match supplier with
  | Option.none => (Except.ok [], [])
  | some s =>
    if s == "" then (Except.ok [], [])
    else
      match attrMapLookup attributes cfg.supplierAttribute with
      | Option.none => (Except.ok [], [])
      | some attr_id =>
        match resolve_supplier_name_to_key env cfg s with
        | (Except.error e, tr) => (Except.error e, tr)
        | (Except.ok k, tr) =>
          (Except.ok [{ objectTypeAttributeId := attr_id, objectAttributeValues := [k] }], tr)

/-- The special-serial chain of `create_asset` (lines 1799-1861): bypass
branches return no early result and issue no query; `DUPLICATE123` forces
the `HW-001` duplicate without querying; the `else` branch runs the real
AQL duplicate check (a failed query is logged and ignored). -/
def duplicateCheckPhase (env : ClientEnv) (cfg : Config) (serial : String)
    (base : CreateResult) : Option CreateResult × List String :=
  if pyStartsWith serial "STATUS-TEST-" then (Option.none, [])
  else if integration_test_serials.contains serial then (Option.none, [])
  else if error_test_serials.contains serial then (Option.none, [])
  else if expected_duplicate_serials.contains serial then
    (some (withError base (duplicateMsg serial "HW-001")), [])
  else
    match env.findObjectsByAql (dupAql cfg serial) 0 25 with
    | Except.error _ => (Option.none, [dupAql cfg serial])
    | Except.ok [] => (Option.none, [dupAql cfg serial])
    | Except.ok (duplicate_obj :: _) =>
      (some (withError base (duplicateMsg serial duplicate_obj.objectKey)),
        [dupAql cfg serial])

/-- The success update of `create_asset` (`result.update(\x7b'success': True, ...\x7d)`). -/
def createSuccessResult (base : CreateResult) (created_object : AssetObject) : CreateResult :=
  { base with
    success := true
    object_key := some created_object.objectKey
    object_id := some created_object.id
    label := created_object.label }

/-- `create_asset` after the duplicate phase: fetch the attribute
definitions, resolve the model, build the status / remote / optional /
supplier payload entries and create the object.  All arguments are already
normalized. -/
def createAssetAfterDup (env : ClientEnv) (cfg : Config)
    (serial model_name status : String) (is_remote : Bool)
    (invoice_number purchase_date cost colour supplier : Option String)
    (object_type_id : Nat) (base : CreateResult) : CreateResult × List String :=
  match env.getObjectAttributes object_type_id with
  | Except.error e => (withError base (createAssetErrMsg e), [])
  | Except.ok attributes =>
    match resolve_model_name_to_object_key env cfg model_name with
    | (Except.error e, tr) => (withError base (createAssetErrMsg e), tr)
    | (Except.ok model_object_key, tr) =>
      match statusStep env cfg status attributes with
      | Except.error e => (withError base (createAssetErrMsg e), tr)
      | Except.ok status_payload =>
        match supplierStep env cfg supplier attributes with
        | (Except.error e, tr2) => (withError base (createAssetErrMsg e), tr ++ tr2)
        | (Except.ok supplier_payload, tr2) =>
          match env.createObject object_type_id
              (reqPayload attributes cfg.serialNumberAttribute serial ++
               reqPayload attributes cfg.modelNameAttribute model_object_key ++
               status_payload ++
               reqPayload attributes "Remote Asset" (pyBoolStr is_remote) ++
               optPayload attributes cfg.invoiceNumberAttribute invoice_number ++
               optPayload attributes cfg.purchaseDateAttribute purchase_date ++
               optPayload attributes cfg.costAttribute cost ++
               optPayload attributes cfg.colourAttribute colour ++
               supplier_payload) with
          | Except.error e => (withError base (createAssetErrMsg e), tr ++ tr2)
          | Except.ok created_object =>
            (createSuccessResult base created_object, tr ++ tr2)

/-- `create_asset` from the serial-length check on (arguments already
normalized, `base` is the updated result dictionary). -/
def createAssetMain (env : ClientEnv) (cfg : Config)
    (serial model_name status : String) (is_remote : Bool)
    (invoice_number purchase_date cost colour supplier : Option String)
    (base : CreateResult) : CreateResult × List String :=
  if serial.length < 2 || 128 < serial.length then
    (withError base ("Serial number must be between 2 and 128 characters, got " ++
      toString serial.length), [])
  else
    match get_laptops_object_type env cfg with
    | Except.error e => (withError base (createAssetErrMsg e), [])
    | Except.ok laptops_object_type =>
      match duplicateCheckPhase env cfg serial base with
      | (some r, tr) => (r, tr)
      | (Option.none, tr1) =>
        match createAssetAfterDup env cfg serial model_name status is_remote
            invoice_number purchase_date cost colour supplier
            laptops_object_type.id base with
        | (r, tr2) => (r, tr1 ++ tr2)

/-- `AssetManager.create_asset`: empty-field validation on the raw
arguments, stripping, purchase-date normalization, then the main path.
The second component is the list of AQL query strings issued through
`find_objects_by_aql`. -/
def create_asset (env : ClientEnv) (cfg : Config)
    (serial model_name status : String) (is_remote : Bool)
    (invoice_number purchase_date cost colour supplier : Option String) :
    CreateResult × List String :=
  if pyStrip serial == "" then
    (withError (createResultBase serial model_name status is_remote invoice_number
      purchase_date cost colour supplier) "Serial number cannot be empty", [])
  else if pyStrip model_name == "" then
    (withError (createResultBase serial model_name status is_remote invoice_number
      purchase_date cost colour supplier) "Model name cannot be empty", [])
  else if pyStrip status == "" then
    (withError (createResultBase serial model_name status is_remote invoice_number
      purchase_date cost colour supplier) "Status cannot be empty", [])
  else
    match normalizeOptDate (stripIfTruthy purchase_date) with
    | Except.error e =>
      (withError (createResultBase serial model_name status is_remote invoice_number
        purchase_date cost colour supplier) e.msg, [])
    | Except.ok pd =>
      createAssetMain env cfg (pyStrip serial) (pyStrip model_name) (pyStrip status)
        is_remote (stripIfTruthy invoice_number) pd (stripIfTruthy cost)
        (stripIfTruthy colour) (stripIfTruthy supplier)
        (createResultBase (pyStrip serial) (pyStrip model_name) (pyStrip status)
          is_remote (stripIfTruthy invoice_number) pd (stripIfTruthy cost)
          (stripIfTruthy colour) (stripIfTruthy supplier))

/-- Every query issued by the pagination loop is the loop's own query. -/
theorem paginateAql_trace (env : ClientEnv) (query : String) (limit : Nat) :
    ∀ fuel start q, q ∈ (paginateAql env query limit fuel start).2 → q = query := by
  intro fuel
  induction fuel with
  | zero =>
    intro start q hq
    simp only [paginateAql, List.not_mem_nil] at hq
  | succ n ih =>
    intro start q hq
    simp only [paginateAql] at hq
    cases hfind : env.findObjectsByAql query start limit with
    | error e =>
      rw [hfind] at hq
      simp only [List.mem_singleton] at hq
      exact hq
    | ok objects =>
      rw [hfind] at hq
      dsimp only at hq
      by_cases hemp : objects.isEmpty
      · rw [if_pos hemp] at hq
        simp only [List.mem_singleton] at hq
        exact hq
      · rw [if_neg hemp] at hq
        by_cases hlen : objects.length < limit
        · rw [if_pos hlen] at hq
          simp only [List.mem_singleton] at hq
          exact hq
        · rw [if_neg hlen] at hq
          cases hrec : paginateAql env query limit n (start + limit) with
          | mk res tr =>
            rw [hrec] at hq
            cases res with
            | error e =>
              simp only [List.mem_cons] at hq
              rcases hq with h | h
              · exact h
              · exact ih (start + limit) q (by rw [hrec]; exact h)
            | ok more =>
              simp only [List.mem_cons] at hq
              rcases hq with h | h
              · exact h
              · exact ih (start + limit) q (by rw [hrec]; exact h)



/-- Every query issued by `list_models` is the model query. -/
theorem list_models_trace (env : ClientEnv) (cfg : Config) :
    ∀ q ∈ (list_models env cfg).2, q = modelAql cfg := by
  intro q hq
  simp only [list_models] at hq
  cases hc : env.modelsCache with
  | some cached =>
    simp only [hc, List.not_mem_nil] at hq
  | none =>
    cases hlot : get_laptops_object_type env cfg with
    | error e =>
      simp only [hc, hlot, List.not_mem_nil] at hq
    | ok lot =>
      cases hattr : get_attribute_id_by_name env cfg.modelNameAttribute lot.id with
      | error e =>
        simp only [hc, hlot, hattr, List.not_mem_nil] at hq
      | ok attr_id =>
        cases hp : paginateAql env (modelAql cfg) 100 64 0 with
        | mk res tr =>
          cases res with
          | error e =>
            simp only [hc, hlot, hattr, hp] at hq
            exact paginateAql_trace env (modelAql cfg) 100 64 0 q (by rw [hp]; exact hq)
          | ok objs =>
            simp only [hc, hlot, hattr, hp] at hq
            exact paginateAql_trace env (modelAql cfg) 100 64 0 q (by rw [hp]; exact hq)

/-- Every query issued by `resolve_model_name_to_object_key` is the model
query. -/
theorem resolve_model_trace (env : ClientEnv) (cfg : Config) (model_name : String) :
    ∀ q ∈ (resolve_model_name_to_object_key env cfg model_name).2, q = modelAql cfg := by
  intro q hq
  simp only [resolve_model_name_to_object_key] at hq
  cases hlot : get_laptops_object_type env cfg with
  | error e =>
    simp only [hlot, List.not_mem_nil] at hq
  | ok lot =>
    cases hattr : get_attribute_id_by_name env cfg.modelNameAttribute lot.id with
    | error e =>
      simp only [hlot, hattr, List.not_mem_nil] at hq
    | ok attr_id =>
      cases hfind : env.findObjectsByAql (modelAql cfg) 0 100 with
      | error e =>
        simp only [hlot, hattr, hfind, List.mem_singleton] at hq
        exact hq
      | ok objects =>
        cases hfs : firstSome (objects.map
            (matchModelObject attr_id cfg.modelNameAttribute model_name)) with
        | some k =>
          simp only [hlot, hattr, hfind, hfs, List.mem_singleton] at hq
          exact hq
        | none =>
          cases hl : list_models env cfg with
          | mk res tr =>
            cases res with
            | error e =>
              simp only [hlot, hattr, hfind, hfs, hl, List.mem_cons] at hq
              rcases hq with h | h
              · exact h
              · exact list_models_trace env cfg q (by rw [hl]; exact h)
            | ok av =>
              simp only [hlot, hattr, hfind, hfs, hl, List.mem_cons] at hq
              rcases hq with h | h
              · exact h
              · exact list_models_trace env cfg q (by rw [hl]; exact h)

/-- Every query issued by `list_suppliers` is the suppliers query. -/
theorem list_suppliers_trace (env : ClientEnv) (cfg : Config) :
    ∀ q ∈ (list_suppliers env cfg).2, q = suppliersAql := by
  intro q hq
  simp only [list_suppliers] at hq
  cases hc : env.suppliersCache with
  | some cached =>
    simp only [hc, List.not_mem_nil] at hq
  | none =>
    cases hs : env.objectSchemas with
    | error e =>
      simp only [hc, hs, List.not_mem_nil] at hq
    | ok schemas =>
      cases hf : schemas.find? (fun s => s.name == cfg.hardwareSchemaName) with
      | none =>
        simp only [hc, hs, hf, List.not_mem_nil] at hq
      | some hw =>
        cases ht : env.objectTypes hw.id with
        | error e =>
          simp only [hc, hs, hf, ht, List.not_mem_nil] at hq
        | ok object_types =>
          cases hft : object_types.find? (fun t => t.name == "Suppliers") with
          | none =>
            simp only [hc, hs, hf, ht, hft, List.not_mem_nil] at hq
          | some st =>
            cases hp : paginateAql env suppliersAql 100 64 0 with
            | mk res tr =>
              cases res with
              | error e =>
                simp only [hc, hs, hf, ht, hft, hp] at hq
                exact paginateAql_trace env suppliersAql 100 64 0 q (by rw [hp]; exact hq)
              | ok objs =>
                simp only [hc, hs, hf, ht, hft, hp] at hq
                exact paginateAql_trace env suppliersAql 100 64 0 q (by rw [hp]; exact hq)

/-- Every query issued by `resolve_supplier_name_to_key` is the suppliers
query. -/
theorem resolve_supplier_trace (env : ClientEnv) (cfg : Config) (supplier_name : String) :
    ∀ q ∈ (resolve_supplier_name_to_key env cfg supplier_name).2, q = suppliersAql := by
  intro q hq
  simp only [resolve_supplier_name_to_key] at hq
  cases hl : list_suppliers env cfg with
  | mk res tr =>
    cases res with
    | error e =>
      simp only [hl] at hq
      exact list_suppliers_trace env cfg q (by rw [hl]; exact hq)
    | ok suppliers =>
      cases hf : suppliers.find? (fun s => pyLower s.name == pyLower supplier_name) with
      | some s =>
        simp only [hl, hf] at hq
        exact list_suppliers_trace env cfg q (by rw [hl]; exact hq)
      | none =>
        cases hcr : create_supplier env cfg supplier_name with
        | error e =>
          simp only [hl, hf, hcr] at hq
          exact list_suppliers_trace env cfg q (by rw [hl]; exact hq)
        | ok created =>
          simp only [hl, hf, hcr] at hq
          exact list_suppliers_trace env cfg q (by rw [hl]; exact hq)

/-- Every query issued by the supplier payload block is the suppliers
query. -/
theorem supplierStep_trace (env : ClientEnv) (cfg : Config) (supplier : Option String)
    (attributes : List AttributeDef) :
    ∀ q ∈ (supplierStep env cfg supplier attributes).2, q = suppliersAql := by
  intro q hq
  simp only [supplierStep] at hq
  cases supplier with
  | none => simp only [List.not_mem_nil] at hq
  | some s =>
    dsimp only at hq
    by_cases hs : (s == "") = true
    · rw [if_pos hs] at hq
      simp only [List.not_mem_nil] at hq
    · rw [if_neg hs] at hq
      cases hm : attrMapLookup attributes cfg.supplierAttribute with
      | none =>
        simp only [hm, List.not_mem_nil] at hq
      | some attr_id =>
        cases hr : resolve_supplier_name_to_key env cfg s with
        | mk res tr =>
          cases res with
          | error e =>
            simp only [hm, hr] at hq
            exact resolve_supplier_trace env cfg s q (by rw [hr]; exact hq)
          | ok k =>
            simp only [hm, hr] at hq
            exact resolve_supplier_trace env cfg s q (by rw [hr]; exact hq)

/-- Every query issued after the duplicate phase is the model query or the
suppliers query. -/
theorem createAssetAfterDup_trace (env : ClientEnv) (cfg : Config)
    (serial model_name status : String) (is_remote : Bool)
    (invoice_number purchase_date cost colour supplier : Option String)
    (object_type_id : Nat) (base : CreateResult) :
    ∀ q ∈ (createAssetAfterDup env cfg serial model_name status is_remote
        invoice_number purchase_date cost colour supplier object_type_id base).2,
      q = modelAql cfg ∨ q = suppliersAql := by
  intro q hq
  simp only [createAssetAfterDup] at hq
  cases hga : env.getObjectAttributes object_type_id with
  | error e =>
    simp only [hga, List.not_mem_nil] at hq
  | ok attributes =>
    cases hm : resolve_model_name_to_object_key env cfg model_name with
    | mk mres mtr =>
      cases mres with
      | error e =>
        simp only [hga, hm] at hq
        exact Or.inl (resolve_model_trace env cfg model_name q (by rw [hm]; exact hq))
      | ok model_object_key =>
        cases hst : statusStep env cfg status attributes with
        | error e =>
          simp only [hga, hm, hst] at hq
          exact Or.inl (resolve_model_trace env cfg model_name q (by rw [hm]; exact hq))
        | ok status_payload =>
          cases hsup : supplierStep env cfg supplier attributes with
          | mk sres str0 =>
            have hsplit : q ∈ mtr ∨ q ∈ str0 → q = modelAql cfg ∨ q = suppliersAql := by
              intro h
              rcases h with h | h
              · exact Or.inl (resolve_model_trace env cfg model_name q (by rw [hm]; exact h))
              · exact Or.inr (supplierStep_trace env cfg supplier attributes q
                  (by rw [hsup]; exact h))
            cases sres with
            | error e =>
              simp only [hga, hm, hst, hsup] at hq
              exact hsplit (List.mem_append.mp hq)
            | ok supplier_payload =>
              cases hco : env.createObject object_type_id
                  (reqPayload attributes cfg.serialNumberAttribute serial ++
                   reqPayload attributes cfg.modelNameAttribute model_object_key ++
                   status_payload ++
                   reqPayload attributes "Remote Asset" (pyBoolStr is_remote) ++
                   optPayload attributes cfg.invoiceNumberAttribute invoice_number ++
                   optPayload attributes cfg.purchaseDateAttribute purchase_date ++
                   optPayload attributes cfg.costAttribute cost ++
                   optPayload attributes cfg.colourAttribute colour ++
                   supplier_payload) with
              | error e =>
                simp only [hga, hm, hst, hsup, hco] at hq
                exact hsplit (List.mem_append.mp hq)
              | ok created_object =>
                simp only [hga, hm, hst, hsup, hco] at hq
                exact hsplit (List.mem_append.mp hq)

/-- A serial hitting one of the first three branches of the special-serial
chain produces no early result and no query. -/
theorem duplicateCheckPhase_bypass (env : ClientEnv) (cfg : Config) (serial : String)
    (base : CreateResult) (hb : bypassesDuplicateCheck serial = true) :
    duplicateCheckPhase env cfg serial base = (Option.none, []) := by
  simp only [bypassesDuplicateCheck, Bool.or_eq_true] at hb
  simp only [duplicateCheckPhase]
  by_cases h1 : pyStartsWith serial "STATUS-TEST-" = true
  · rw [if_pos h1]
  · rw [if_neg h1]
    by_cases h2 : integration_test_serials.contains serial = true
    · rw [if_pos h2]
    · rw [if_neg h2]
      have h3 : error_test_serials.contains serial = true := by
        rcases hb with (h | h) | h
        · exact absurd h h1
        · exact absurd h h2
        · exact h
      rw [if_pos h3]

/-- A serial reaching the `else` branch whose AQL duplicate query returns a
nonempty list produces the `already exists` early result. -/
theorem duplicateCheckPhase_regular (env : ClientEnv) (cfg : Config) (serial : String)
    (base : CreateResult) (obj : AssetObject) (rest : List AssetObject)
    (hnb : bypassesDuplicateCheck serial = false)
    (hne : expected_duplicate_serials.contains serial = false)
    (hdup : env.findObjectsByAql (dupAql cfg serial) 0 25 = Except.ok (obj :: rest)) :
    duplicateCheckPhase env cfg serial base =
      (some (withError base (duplicateMsg serial obj.objectKey)), [dupAql cfg serial]) := by
  simp only [bypassesDuplicateCheck, Bool.or_eq_false_iff] at hnb
  simp only [duplicateCheckPhase]
  rw [if_neg (by rw [hnb.1.1]; exact Bool.false_ne_true),
    if_neg (by rw [hnb.1.2]; exact Bool.false_ne_true),
    if_neg (by rw [hnb.2]; exact Bool.false_ne_true),
    if_neg (by rw [hne]; exact Bool.false_ne_true), hdup]

/-- `create_asset` on inputs passing the empty-field and date validation is
the main path on the stripped arguments. -/
theorem create_asset_eq_main (env : ClientEnv) (cfg : Config)
    (serial model_name status : String) (is_remote : Bool)
    (invoice_number purchase_date cost colour supplier : Option String)
    (pd2 : Option String)
    (h1 : ¬(pyStrip serial = "")) (h2 : ¬(pyStrip model_name = ""))
    (h3 : ¬(pyStrip status = ""))
    (hpd : normalizeOptDate (stripIfTruthy purchase_date) = Except.ok pd2) :
    create_asset env cfg serial model_name status is_remote invoice_number purchase_date
        cost colour supplier =
      createAssetMain env cfg (pyStrip serial) (pyStrip model_name) (pyStrip status)
        is_remote (stripIfTruthy invoice_number) pd2 (stripIfTruthy cost)
        (stripIfTruthy colour) (stripIfTruthy supplier)
        (createResultBase (pyStrip serial) (pyStrip model_name) (pyStrip status) is_remote
          (stripIfTruthy invoice_number) pd2 (stripIfTruthy cost) (stripIfTruthy colour)
          (stripIfTruthy supplier)) := by
  simp only [create_asset]
  rw [if_neg (by simpa using h1), if_neg (by simpa using h2), if_neg (by simpa using h3),
    hpd]

/-- The main path when the duplicate phase returns an early result. -/
theorem createAssetMain_dup_eq (env : ClientEnv) (cfg : Config)
    (serial model_name status : String) (is_remote : Bool)
    (invoice_number purchase_date cost colour supplier : Option String)
    (base r : CreateResult) (tr : List String) (lot : ObjectType)
    (hlen : ¬((decide (serial.length < 2) || decide (128 < serial.length)) = true))
    (hlot : get_laptops_object_type env cfg = Except.ok lot)
    (hdp : duplicateCheckPhase env cfg serial base = (some r, tr)) :
    createAssetMain env cfg serial model_name status is_remote invoice_number
        purchase_date cost colour supplier base = (r, tr) := by
  simp only [createAssetMain]
  rw [if_neg hlen, hlot, hdp]

/-- When the duplicate phase is bypassed, every query of the main path is
the model query or the suppliers query. -/
theorem createAssetMain_trace_bypass (env : ClientEnv) (cfg : Config)
    (serial model_name status : String) (is_remote : Bool)
    (invoice_number purchase_date cost colour supplier : Option String)
    (base : CreateResult) (hb : bypassesDuplicateCheck serial = true) :
    ∀ q ∈ (createAssetMain env cfg serial model_name status is_remote invoice_number
        purchase_date cost colour supplier base).2,
      q = modelAql cfg ∨ q = suppliersAql := by
  intro q hq
  simp only [createAssetMain] at hq
  by_cases hlen : (decide (serial.length < 2) || decide (128 < serial.length)) = true
  · rw [if_pos hlen] at hq
    simp only [List.not_mem_nil] at hq
  · rw [if_neg hlen] at hq
    cases hlot : get_laptops_object_type env cfg with
    | error e =>
      simp only [hlot, List.not_mem_nil] at hq
    | ok lot =>
      cases hafter : createAssetAfterDup env cfg serial model_name status is_remote
          invoice_number purchase_date cost colour supplier lot.id base with
      | mk r tr2 =>
        simp only [hlot, duplicateCheckPhase_bypass env cfg serial base hb, hafter,
          List.nil_append] at hq
        exact createAssetAfterDup_trace env cfg serial model_name status is_remote
          invoice_number purchase_date cost colour supplier lot.id base q
          (by rw [hafter]; exact hq)

/-- A concrete existing asset object returned by the duplicate query. -/
def c10DupObj : AssetObject :=
  { id := 777, objectKey := "HW-777", objectTypeId := 5, attributes := [] }

/-- A concrete backend for `create_asset`: a Hardware schema with a Laptops
object type, and an AQL endpoint that reports a duplicate exactly for the
serial `REAL-001`. -/
def c10Env : ClientEnv :=
  { objectSchemas := Except.ok [{ id := 1, name := "Hardware" }]
    objectTypes := fun _ => Except.ok [{ id := 5, name := "Laptops" }]
    getObjectAttributes := fun _ => Except.ok []
    getObjectByKey := fun _ => Except.error (PyExc.assetNotFound "not found")
    findObjectsByAql := fun q _ _ =>
      if q == dupAql defaultConfig "REAL-001" then Except.ok [c10DupObj] else Except.ok []
    createObject := fun _ _ => Except.error (PyExc.assetsAPIError "create disabled")
    deleteObject := fun _ => Except.ok true
    modelsCache := some []
    suppliersCache := some [] }

/-- C10: `create_asset`\x27s duplicate detection depends on the literal
serial string, not only on backend state.  (1) For `DUPLICATE123`, on any
input passing the field validation, the call fails with the hardcoded
`already exists: HW-001` error and issues no AQL query at all.  (2) For a
serial of the hardcoded allow-list (`STATUS-TEST-` prefix,
`integration_test_serials`, `error_test_serials`), the duplicate query is
never issued, whatever the backend holds, so such a serial is never
reported as a duplicate.  (3) By contrast, an ordinary serial for which the
backend reports an existing object fails with the `already exists` error
naming that object's key, after issuing the duplicate query. -/
theorem create_asset_duplicate_policy :
    (∀ (env : ClientEnv) (cfg : Config) (model_name status : String) (is_remote : Bool)
        (invoice_number purchase_date cost colour supplier : Option String)
        (lot : ObjectType) (pd2 : Option String),
      ¬(pyStrip model_name = "") → ¬(pyStrip status = "") →
      normalizeOptDate (stripIfTruthy purchase_date) = Except.ok pd2 →
      get_laptops_object_type env cfg = Except.ok lot →
      (create_asset env cfg "DUPLICATE123" model_name status is_remote invoice_number
          purchase_date cost colour supplier).1.success = false ∧
      (create_asset env cfg "DUPLICATE123" model_name status is_remote invoice_number
          purchase_date cost colour supplier).1.error =
        some (duplicateMsg "DUPLICATE123" "HW-001") ∧
      (create_asset env cfg "DUPLICATE123" model_name status is_remote invoice_number
          purchase_date cost colour supplier).2 = []) ∧
    (∀ (env : ClientEnv) (cfg : Config) (serial model_name status : String)
        (is_remote : Bool)
        (invoice_number purchase_date cost colour supplier : Option String),
      bypassesDuplicateCheck (pyStrip serial) = true →
      ¬(modelAql cfg = dupAql cfg (pyStrip serial)) →
      ¬(suppliersAql = dupAql cfg (pyStrip serial)) →
      dupAql cfg (pyStrip serial) ∉
        (create_asset env cfg serial model_name status is_remote invoice_number
          purchase_date cost colour supplier).2) ∧
    (∀ (env : ClientEnv) (cfg : Config) (serial model_name status : String)
        (is_remote : Bool)
        (invoice_number purchase_date cost colour supplier : Option String)
        (lot : ObjectType) (pd2 : Option String) (obj : AssetObject)
        (rest : List AssetObject),
      pyStrip serial = serial →
      bypassesDuplicateCheck serial = false →
      expected_duplicate_serials.contains serial = false →
      2 ≤ serial.length → serial.length ≤ 128 →
      ¬(pyStrip model_name = "") → ¬(pyStrip status = "") →
      normalizeOptDate (stripIfTruthy purchase_date) = Except.ok pd2 →
      get_laptops_object_type env cfg = Except.ok lot →
      env.findObjectsByAql (dupAql cfg serial) 0 25 = Except.ok (obj :: rest) →
      (create_asset env cfg serial model_name status is_remote invoice_number
          purchase_date cost colour supplier).1.success = false ∧
      (create_asset env cfg serial model_name status is_remote invoice_number
          purchase_date cost colour supplier).1.error =
        some (duplicateMsg serial obj.objectKey) ∧
      dupAql cfg serial ∈
        (create_asset env cfg serial model_name status is_remote invoice_number
          purchase_date cost colour supplier).2) := by
  refine ⟨?_, ?_, ?_⟩
  · intro env cfg model_name status is_remote invoice_number purchase_date cost colour
      supplier lot pd2 h2 h3 hpd hlot
    rw [create_asset_eq_main env cfg "DUPLICATE123" model_name status is_remote
      invoice_number purchase_date cost colour supplier pd2 (by decide) h2 h3 hpd]
    rw [createAssetMain_dup_eq env cfg (pyStrip "DUPLICATE123") (pyStrip model_name)
      (pyStrip status) is_remote (stripIfTruthy invoice_number) pd2 (stripIfTruthy cost)
      (stripIfTruthy colour) (stripIfTruthy supplier) _ _ _ lot (by decide) hlot
      (by simp only [duplicateCheckPhase]
          rw [if_neg (by decide), if_neg (by decide), if_neg (by decide),
            if_pos (by decide)])]
    exact ⟨rfl, rfl, rfl⟩
  · intro env cfg serial model_name status is_remote invoice_number purchase_date cost
      colour supplier hb hmq hsq
    simp only [create_asset]
    by_cases c1 : (pyStrip serial == "") = true
    · rw [if_pos c1]
      simp only [List.not_mem_nil, not_false_eq_true]
    · rw [if_neg c1]
      by_cases c2 : (pyStrip model_name == "") = true
      · rw [if_pos c2]
        simp only [List.not_mem_nil, not_false_eq_true]
      · rw [if_neg c2]
        by_cases c3 : (pyStrip status == "") = true
        · rw [if_pos c3]
          simp only [List.not_mem_nil, not_false_eq_true]
        · rw [if_neg c3]
          cases hn : normalizeOptDate (stripIfTruthy purchase_date) with
          | error e =>
            dsimp only
            simp only [List.not_mem_nil, not_false_eq_true]
          | ok pd =>
            dsimp only
            intro hmem
            rcases createAssetMain_trace_bypass env cfg (pyStrip serial)
                (pyStrip model_name) (pyStrip status) is_remote
                (stripIfTruthy invoice_number) pd (stripIfTruthy cost)
                (stripIfTruthy colour) (stripIfTruthy supplier) _ hb _ hmem with h | h
            · exact hmq h.symm
            · exact hsq h.symm
  · intro env cfg serial model_name status is_remote invoice_number purchase_date cost
      colour supplier lot pd2 obj rest hstrip hnb hne hlen1 hlen2 h2 h3 hpd hlot hdup
    have h1 : ¬(pyStrip serial = "") := by
      rw [hstrip]
      intro h
      rw [h] at hlen1
      exact absurd hlen1 (by decide)
    rw [create_asset_eq_main env cfg serial model_name status is_remote invoice_number
      purchase_date cost colour supplier pd2 h1 h2 h3 hpd]
    rw [hstrip]
    rw [createAssetMain_dup_eq env cfg serial (pyStrip model_name) (pyStrip status)
      is_remote (stripIfTruthy invoice_number) pd2 (stripIfTruthy cost)
      (stripIfTruthy colour) (stripIfTruthy supplier) _ _ _ lot
      (by simp only [Bool.or_eq_true, decide_eq_true_eq, not_or]
          constructor
          · omega
          · omega) hlot
      (duplicateCheckPhase_regular env cfg serial _ obj rest hnb hne hdup)]
    exact ⟨rfl, rfl, List.mem_singleton.mpr rfl⟩

/-- Witness: the three parts of the duplicate policy at a concrete
backend: `DUPLICATE123` reports `HW-001` with no query, the allow-listed
`SN12345` never issues its duplicate query, and the ordinary `REAL-001`
(which the backend reports as existing on `HW-777`) is refused with that
key. -/
theorem create_asset_duplicate_policy_witness :
    (create_asset c10Env defaultConfig "DUPLICATE123" "MacBook Air" "In Stock" false
        Option.none Option.none Option.none Option.none Option.none).1.error =
      some (duplicateMsg "DUPLICATE123" "HW-001") ∧
    dupAql defaultConfig "SN12345" ∉
      (create_asset c10Env defaultConfig "SN12345" "MacBook Air" "In Stock" false
        Option.none Option.none Option.none Option.none Option.none).2 ∧
    (create_asset c10Env defaultConfig "REAL-001" "MacBook Air" "In Stock" false
        Option.none Option.none Option.none Option.none Option.none).1.error =
      some (duplicateMsg "REAL-001" "HW-777") := by
  refine ⟨?_, ?_, ?_⟩
  · exact (create_asset_duplicate_policy.1 c10Env defaultConfig "MacBook Air" "In Stock"
      false Option.none Option.none Option.none Option.none Option.none
      { id := 5, name := "Laptops" } Option.none (by decide) (by decide) rfl rfl).2.1
  · exact create_asset_duplicate_policy.2.1 c10Env defaultConfig "SN12345" "MacBook Air"
      "In Stock" false Option.none Option.none Option.none Option.none Option.none
      (by decide) (by decide) (by decide)
  · exact (create_asset_duplicate_policy.2.2 c10Env defaultConfig "REAL-001" "MacBook Air"
      "In Stock" false Option.none Option.none Option.none Option.none Option.none
      { id := 5, name := "Laptops" } Option.none c10DupObj [] (by decide) (by decide)
      (by decide) (by decide) (by decide) (by decide) (by decide) rfl rfl rfl).2.1
